import Mathlib

set_option maxRecDepth 2048

/-!
A shallow embedding of `scripts/parallel_orchestrator.py` (the parallel
multi-agent orchestrator).  Python classes become Lean structures; the
stateful methods become pure functions that take the old state and the
environment's choices (subprocess outcomes, random draws, clock readings)
as explicit arguments and return the new state.  The `while` retry loop of
`AgentTask.execute` is compiled to a fuel-indexed recursion whose fuel is
`max_retries + 1 - attempt`, the exact number of remaining loop iterations
(the loop guard is `attempt <= max_retries` and every iteration increments
`attempt` by one, so it runs exactly that many times).
-/

/-- Python `class AgentStatus(Enum)`. -/
inductive AgentStatus where
  | pending
  | running
  | completed
  | failed
  | retrying
deriving DecidableEq, Repr

/-- The `.value` strings of the Python enum members. -/
def AgentStatus.value : AgentStatus → String
  | .pending => "pending"
  | .running => "running"
  | .completed => "completed"
  | .failed => "failed"
  | .retrying => "retrying"

/-- Python `@dataclass AgentMessage` (field order as in the source:
`from_agent, content, timestamp, msg_type`).  The `timestamp` default
`datetime.now().isoformat()` is supplied explicitly by callers. -/
structure AgentMessage where
  from_agent : String
  content : String
  timestamp : String
  msg_type : String
deriving DecidableEq, Repr

/-- Python `class MessageBoard` (its `threading.Lock` only serializes the
list operations; the embedding works on the list directly). -/
structure MessageBoard where
  messages : List AgentMessage
deriving DecidableEq, Repr

/-- `MessageBoard.post`: append one message; `now` stands for the
`datetime.now().isoformat()` default of the dataclass. -/
def MessageBoard.post (board : MessageBoard) (from_agent content : String)
    (msg_type : String) (now : String) : MessageBoard :=
  { messages := board.messages ++
      [{ from_agent := from_agent, content := content, timestamp := now,
         msg_type := msg_type }] }

/-- `MessageBoard.get_messages(since=None)`.  Python's `if since:` is
truthiness: it filters only when `since` is neither `None` nor `""`. -/
def MessageBoard.get_messages (board : MessageBoard) (since : Option String) :
    List AgentMessage :=
  match since with
  | some s =>
      if s = "" then board.messages
      else board.messages.filter (fun m => decide (s < m.timestamp))
  | none => board.messages

/-- `MessageBoard.get_findings`. -/
def MessageBoard.get_findings (board : MessageBoard) : List AgentMessage :=
  board.messages.filter (fun m => m.msg_type == "finding")

/-- Python substring test `pat in s` (for nonempty `pat`). -/
def strContains (s pat : String) : Bool :=
  (s.splitOn pat).length != 1

/-- The outcome of the `subprocess` call made by `_real_execute`:
the process finished (with captured stdout/stderr and a return code),
it timed out (`subprocess.TimeoutExpired`), or some other exception was
raised inside `_real_execute`'s own `try` (caught there). -/
inductive ProcOutcome where
  | finished (stdout stderr : String) (returncode : Int)
  | timedOut
  | excCaught (msg : String)
deriving DecidableEq, Repr

/-- What one attempt body does from `execute`'s point of view: return a
boolean, or raise an exception out to `execute`'s `except` handler. -/
inductive CallResult where
  | ret (success : Bool)
  | raised (msg : String)
deriving DecidableEq, Repr

/-- The effect an attempt body has on the task's `result`/`error` fields
(`none` = the Python code leaves the field untouched), plus its outcome. -/
structure CallEffect where
  newResult : Option String
  newError : Option String
  outcome : CallResult
deriving DecidableEq, Repr

/-- The environment's choice for one attempt: live mode runs the external
engine (`_real_execute`), simulation mode runs `_mock_execute` (with the
`random.random() < 0.1` draw resolved to `failSim`), or the attempt body
raises before producing a boolean (e.g. a progress callback raising inside
`_mock_execute`), which lands in `execute`'s `except` branch. -/
inductive CallBehavior where
  | live (p : ProcOutcome)
  | mock (failSim : Bool)
  | raiseExc (msg : String)
deriving DecidableEq, Repr

/-- Python slicing `s[:n]` (character-based), modeled over the character
data of the string (`String.take` is specified by exactly this equation on
`data`). -/
def strTake (s : String) (n : Nat) : String :=
  { data := s.data.take n }

/-- The mock result string built by `_mock_execute`. -/
def mockResultText (name prompt : String) : String :=
  "MOCK RESULT for " ++ name ++ ": Analyzed '" ++ strTake prompt 30 ++
    "...' - Found 3 potential improvements."

/-- `AgentTask._mock_execute` as a field effect: fails (only) on the first
attempt when the random draw says so, otherwise sets the mock result. -/
def mock_execute (failSim : Bool) (attempt : Nat) (name prompt : String) :
    CallEffect :=
  if failSim && attempt == 1 then
    { newResult := none, newError := some "Simulated failure",
      outcome := CallResult.ret false }
  else
    { newResult := some (mockResultText name prompt), newError := none,
      outcome := CallResult.ret true }

/-- `AgentTask._real_execute` as a field effect.  `self.result = stdout`
runs only when `communicate` returned; on a nonzero return code the stderr
is recorded as the error and `False` is returned.  Timeouts and other
exceptions are caught inside `_real_execute` itself and also return
`False` after recording an error. -/
def real_execute (p : ProcOutcome) : CallEffect :=
  match p with
  | ProcOutcome.finished stdout stderr rc =>
      if rc != 0 then
        { newResult := some stdout, newError := some stderr,
          outcome := CallResult.ret false }
      else
        { newResult := some stdout, newError := none,
          outcome := CallResult.ret true }
  | ProcOutcome.timedOut =>
      { newResult := none, newError := some "Execution timed out (5 min)",
        outcome := CallResult.ret false }
  | ProcOutcome.excCaught msg =>
      { newResult := none, newError := some msg,
        outcome := CallResult.ret false }

/-- One attempt body (the inside of `execute`'s `try`, up to the boolean
test): `_mock_execute` in test mode, `_real_execute` otherwise, or a raise
that escapes to the `except` handler. -/
def runCall (c : CallBehavior) (attempt : Nat) (name prompt : String) :
    CallEffect :=
  match c with
  | CallBehavior.live p => real_execute p
  | CallBehavior.mock failSim => mock_execute failSim attempt name prompt
  | CallBehavior.raiseExc msg =>
      { newResult := none, newError := none,
        outcome := CallResult.raised msg }

/-- Whether the attempt body returns `True` (the `if result:` test in
`execute`). -/
def callSucceeds (c : CallBehavior) (attempt : Nat) : Bool :=
  match c with
  | CallBehavior.live (ProcOutcome.finished _ _ rc) => rc == 0
  | CallBehavior.live ProcOutcome.timedOut => false
  | CallBehavior.live (ProcOutcome.excCaught _) => false
  | CallBehavior.mock failSim => !(failSim && attempt == 1)
  | CallBehavior.raiseExc _ => false

/-- Whether the attempt body returns `False` (fails without raising). -/
def callFailsByRet (c : CallBehavior) (attempt : Nat) : Bool :=
  match c with
  | CallBehavior.raiseExc _ => false
  | _ => !(callSucceeds c attempt)

/-- The `result` text a successful attempt stores (stdout in live mode,
the mock string in simulation mode). -/
def callOutput (c : CallBehavior) (name prompt : String) : String :=
  match c with
  | CallBehavior.live (ProcOutcome.finished stdout _ _) => stdout
  | CallBehavior.live ProcOutcome.timedOut => ""
  | CallBehavior.live (ProcOutcome.excCaught _) => ""
  | CallBehavior.mock _ => mockResultText name prompt
  | CallBehavior.raiseExc _ => ""

/-- Everything the environment decides for one attempt: the attempt body's
behavior and the clock readings used for `started_at` and for the
timestamps of messages posted during that attempt. -/
structure AttemptEnv where
  call : CallBehavior
  startTime : String
  msgTime : String
deriving DecidableEq, Repr

/-- Python `class AgentTask` (the fields mutated by `execute`). -/
structure AgentTask where
  agent_id : String
  prompt : String
  name : String
  status : AgentStatus
  result : String
  error : String
  started_at : Option String
  ended_at : Option String
  attempt : Nat
  max_retries : Nat
deriving DecidableEq, Repr

/-- `AgentTask.__init__` (note the `name or f"Agent-{agent_id[:4]}"`
fallback). -/
def AgentTask.init (agent_id prompt name : String) (max_retries : Nat) :
    AgentTask :=
  { agent_id := agent_id
    prompt := prompt
    name := if name = "" then "Agent-" ++ strTake agent_id 4 else name
    status := AgentStatus.pending
    result := ""
    error := ""
    started_at := none
    ended_at := none
    attempt := 0
    max_retries := max_retries }

/-- The `while self.attempt <= self.max_retries:` loop of
`AgentTask.execute`, with `fuel` bounding the remaining iterations.
`envs k` is the environment of attempt number `k` (`k = attempt` after the
increment).  Mirrors the source line by line: increment `attempt`; set
`status` to `running`/`retrying` and stamp `started_at`; run the attempt
body; on `True` set `completed`, post the info message and possibly a
finding, and `break`; on `False` either post the retry warning and loop,
or set `failed` and post the exhaustion warning (after which the loop
guard fails); on a raise record the error and either loop or set `failed`
(posting nothing). -/
def executeLoopFuel (envs : Nat → AttemptEnv) :
    Nat → AgentTask → MessageBoard → AgentTask × MessageBoard
  | 0, t, b => (t, b)
  | fuel + 1, t, b =>
    if t.attempt ≤ t.max_retries then
      let env := envs (t.attempt + 1)
      let t1 : AgentTask :=
        { t with attempt := t.attempt + 1
                 status := if t.attempt + 1 = 1 then AgentStatus.running
                           else AgentStatus.retrying
                 started_at := some env.startTime }
      let eff := runCall env.call t1.attempt t1.name t1.prompt
      let t2 : AgentTask :=
        { t1 with result := eff.newResult.getD t1.result
                  error := eff.newError.getD t1.error }
      match eff.outcome with
      | CallResult.ret true =>
          let t3 : AgentTask := { t2 with status := AgentStatus.completed }
          let b1 := b.post t3.name "Completed analysis" "info" env.msgTime
          let b2 :=
            if strContains t3.result.toLower "issue" ||
               strContains t3.result.toLower "problem" then
              b1.post t3.name "Found potential issues" "finding" env.msgTime
            else b1
          (t3, b2)
      | CallResult.ret false =>
          if t2.attempt ≤ t2.max_retries then
            executeLoopFuel envs fuel t2
              (b.post t2.name
                ("Retrying (attempt " ++ toString (t2.attempt + 1) ++ ")")
                "warning" env.msgTime)
          else
            ({ t2 with status := AgentStatus.failed },
             b.post t2.name
               ("Failed after " ++ toString t2.max_retries ++ " retries")
               "warning" env.msgTime)
      | CallResult.raised msg =>
          let t3 : AgentTask := { t2 with error := msg }
          if t3.attempt ≤ t3.max_retries then
            executeLoopFuel envs fuel t3 b
          else
            ({ t3 with status := AgentStatus.failed }, b)
    else (t, b)

/-- The retry loop with its exact iteration budget. -/
def executeLoop (t : AgentTask) (b : MessageBoard) (envs : Nat → AttemptEnv) :
    AgentTask × MessageBoard :=
  executeLoopFuel envs (t.max_retries + 1 - t.attempt) t b

/-- `AgentTask.execute`: run the retry loop, then stamp `ended_at`.
The board argument is the shared `message_board` (always present when the
Orchestrator built the task, so `post_message` always posts). -/
def AgentTask.execute (t : AgentTask) (b : MessageBoard)
    (envs : Nat → AttemptEnv) (endTime : String) : AgentTask × MessageBoard :=
  let r := executeLoop t b envs
  ({ r.1 with ended_at := some endTime }, r.2)

/-- One entry of the `agent_map` list in `initialize_tasks`. -/
structure AgentMapItem where
  perspective : String
  agent : String
  emoji : String
deriving DecidableEq, Repr

/-- The fixed perspective catalog of `Orchestrator.initialize_tasks`. -/
def agent_map : List AgentMapItem :=
  [{ perspective := "Security & Architecture", agent := "security-auditor",
     emoji := "🔒" },
   { perspective := "Backend & API", agent := "backend-specialist",
     emoji := "⚙️" },
   { perspective := "Frontend & UX", agent := "frontend-specialist",
     emoji := "🎨" },
   { perspective := "Testing & QA", agent := "test-engineer",
     emoji := "🧪" },
   { perspective := "DevOps & Performance", agent := "devops-engineer",
     emoji := "🚀" }]

/-- Python `class Orchestrator` state. -/
structure Orchestrator where
  main_prompt : String
  agent_count : Nat
  test_mode : Bool
  max_retries : Nat
  session_id : String
  tasks : List AgentTask
  message_board : MessageBoard
deriving DecidableEq, Repr

/-- `Orchestrator.__init__` (session id — a uuid — passed explicitly). -/
def Orchestrator.init (main_prompt : String) (agent_count : Nat)
    (test_mode : Bool) (max_retries : Nat) (session_id : String) :
    Orchestrator :=
  { main_prompt := main_prompt
    agent_count := agent_count
    test_mode := test_mode
    max_retries := max_retries
    session_id := session_id
    tasks := []
    message_board := { messages := [] } }

/-- `Orchestrator.initialize_tasks`: append one task per agent, cycling
through `agent_map`; `ids i` stands for the uuid drawn for task `i`. -/
def Orchestrator.initialize_tasks (o : Orchestrator) (ids : Nat → String) :
    Orchestrator :=
  { o with tasks := o.tasks ++ (List.range o.agent_count).map (fun i =>
      let m := agent_map.getD (i % agent_map.length)
        { perspective := "", agent := "", emoji := "" }
      AgentTask.init (ids i)
        ("As " ++ m.agent ++ ", analyze from " ++ m.perspective ++
          " perspective: " ++ o.main_prompt)
        (m.emoji ++ " " ++ m.agent)
        o.max_retries) }

/-- One task entry of the `save_state` snapshot. -/
structure TaskSnapshot where
  id : String
  name : String
  status : String
  attempt : Nat
  started_at : Option String
  ended_at : Option String
  result_snippet : String
  error : String
deriving DecidableEq, Repr

/-- One message entry of the `save_state` snapshot. -/
structure MessageSnapshot where
  msgFrom : String
  content : String
  msg_type : String
  timestamp : String
deriving DecidableEq, Repr

/-- The JSON state written by `Orchestrator.save_state`. -/
structure OrchestratorState where
  session_id : String
  timestamp : String
  main_prompt : String
  tasks : List TaskSnapshot
  messages : List MessageSnapshot
deriving DecidableEq, Repr

/-- `Orchestrator.save_state`: build the snapshot (`now` stands for
`datetime.now().isoformat()`); the file write itself is the `write`
effect of `run_simple` below. -/
def Orchestrator.save_state (o : Orchestrator) (now : String) :
    OrchestratorState :=
  { session_id := o.session_id
    timestamp := now
    main_prompt := o.main_prompt
    tasks := o.tasks.map (fun t =>
      { id := t.agent_id
        name := t.name
        status := t.status.value
        attempt := t.attempt
        started_at := t.started_at
        ended_at := t.ended_at
        result_snippet := if t.result ≠ "" then strTake t.result 200 else ""
        error := t.error })
    messages := o.message_board.messages.map (fun m =>
      { msgFrom := m.from_agent
        content := m.content
        msg_type := m.msg_type
        timestamp := m.timestamp }) }

/-- Executing the submitted tasks one terminal completion at a time (one
linearization of the thread pool; each task mutates only itself and the
shared board).  `envs i` is the attempt environment of task `i`,
`endTimes i` its `ended_at` reading. -/
def runTasksSeq (envs : Nat → Nat → AttemptEnv) (endTimes : Nat → String) :
    List AgentTask → MessageBoard → Nat → List AgentTask × MessageBoard
  | [], b, _ => ([], b)
  | t :: rest, b, i =>
      let r := t.execute b (envs i) (endTimes i)
      let rr := runTasksSeq envs endTimes rest r.2 (i + 1)
      (r.1 :: rr.1, rr.2)

/-- `Orchestrator.run` (state part): `initialize_tasks`, then run every
task to a terminal status.  (`synthesize` reads but does not change the
session state; it is modeled separately below.) -/
def Orchestrator.run (o : Orchestrator) (ids : Nat → String)
    (envs : Nat → Nat → AttemptEnv) (endTimes : Nat → String) :
    Orchestrator :=
  let o1 := o.initialize_tasks ids
  let r := runTasksSeq envs endTimes o1.tasks o1.message_board 0
  { o1 with tasks := r.1, message_board := r.2 }

/-- The loop body of `Orchestrator._run_simple`: as each future completes,
print its status and call `self.save_state()` — with no `try` around the
state write, so a failing write (`write` returns `Except.error`)
propagates immediately.  `pre` holds the already-executed tasks,
`rest` the still-pending ones (the snapshot serializes both). -/
def runSimpleAux (o : Orchestrator)
    (write : OrchestratorState → Except String Unit)
    (envs : Nat → Nat → AttemptEnv) (endTimes nowTimes : Nat → String) :
    List AgentTask → List AgentTask → MessageBoard → Nat →
    Except String (List AgentTask × MessageBoard)
  | pre, [], b, _ => Except.ok (pre, b)
  | pre, t :: rest, b, i =>
      let r := t.execute b (envs i) (endTimes i)
      let snap := Orchestrator.save_state
        { o with tasks := pre ++ r.1 :: rest, message_board := r.2 }
        (nowTimes i)
      match write snap with
      | Except.error e => Except.error e
      | Except.ok _ =>
          runSimpleAux o write envs endTimes nowTimes
            (pre ++ [r.1]) rest r.2 (i + 1)

/-- `Orchestrator._run_simple` over already-initialized tasks: an error
from the state write escapes; otherwise the updated session state is
returned. -/
def Orchestrator.run_simple (o : Orchestrator)
    (write : OrchestratorState → Except String Unit)
    (envs : Nat → Nat → AttemptEnv) (endTimes nowTimes : Nat → String) :
    Except String Orchestrator :=
  match runSimpleAux o write envs endTimes nowTimes [] o.tasks
      o.message_board 0 with
  | Except.error e => Except.error e
  | Except.ok r => Except.ok { o with tasks := r.1, message_board := r.2 }

/-- The status emoji chosen per task section in `synthesize`. -/
def statusEmoji (t : AgentTask) : String :=
  if t.status = AgentStatus.completed then "✅" else "❌"

/-- The `### {task.name} {status_emoji}` line of a task section. -/
def taskHeaderLine (t : AgentTask) : String :=
  "### " ++ t.name ++ " " ++ statusEmoji t

/-- The truncated output element of a task section. -/
def outputLine (t : AgentTask) : String :=
  if t.result ≠ "" then strTake t.result 1000 else "(no output)"

/-- The error block appended for tasks with a nonempty `error`. -/
def errorBlock (t : AgentTask) : List String :=
  ["**Error:**", "```", strTake t.error 500, "```", ""]

/-- The report lines `synthesize` emits for one task. -/
def taskSection (t : AgentTask) : List String :=
  [taskHeaderLine t,
   "",
   "- **Status**: " ++ t.status.value,
   "- **Attempts**: " ++ toString t.attempt,
   "",
   "**Output:**",
   "```",
   outputLine t,
   "```",
   ""]
  ++ (if t.error ≠ "" then errorBlock t else [])
  ++ ["---\n"]

/-- The shared-findings bullet for one finding message. -/
def findingLine (m : AgentMessage) : String :=
  "- **" ++ m.from_agent ++ "**: " ++ m.content

/-- The report preamble built by `synthesize` (`elapsed_str` stands for
the formatted wall-clock duration). -/
def synthesizeHeader (o : Orchestrator) (elapsed_str : String) :
    List String :=
  ["# Parallel Agents Synthesis Report",
   "",
   "**Session ID**: `" ++ o.session_id ++ "`",
   "**Objective**: " ++ o.main_prompt,
   "**Duration**: " ++ elapsed_str,
   "**Agents**: " ++ toString o.agent_count,
   "",
   "---",
   "",
   "## Agent Results",
   ""]

/-- `Orchestrator.synthesize`: the full `report_lines` list (the file is
`"\n".join` of it). -/
def Orchestrator.synthesize (o : Orchestrator) (elapsed_str : String) :
    List String :=
  synthesizeHeader o elapsed_str
  ++ o.tasks.flatMap taskSection
  ++ (let findings := o.message_board.get_findings
      if findings ≠ [] then
        ["## Shared Findings", ""] ++ findings.map findingLine ++ [""]
      else [])

/-- `line` starts with the literal `lit` (stated over the character data,
which composes well under `++`). -/
def strStarts (line lit : String) : Bool :=
  line.data.take lit.data.length == lit.data

/-- Classifier for task-section header lines of the report. -/
def isTaskHeaderLine (line : String) : Bool :=
  strStarts line "### "

/-- Classifier for shared-findings bullets of the report (the two
metadata bullets of a task section are excluded by their literal
prefixes). -/
def isFindingItemLine (line : String) : Bool :=
  strStarts line "- **" &&
  !(strStarts line "- **Status**: ") &&
  !(strStarts line "- **Attempts**: ")

/-- A report line that is neither a task header nor a findings bullet
(hypothesis shape for the free-text lines of the report). -/
def neutralLine (line : String) : Prop :=
  isTaskHeaderLine line = false ∧ isFindingItemLine line = false

/-- The retry warnings an all-attempts-fail run posts: one per attempt
`k ∈ [a+1, max]` that failed by returning `False` (attempts failing by
raising post nothing). -/
def warnList (name : String) (a max : Nat) (envs : Nat → AttemptEnv) :
    List AgentMessage :=
  ((List.range' (a + 1) (max - a)).filter
      (fun i => callFailsByRet (envs i).call i)).map
    (fun i =>
      { from_agent := name
        content := "Retrying (attempt " ++ toString (i + 1) ++ ")"
        timestamp := (envs i).msgTime
        msg_type := "warning" })

/-- The exhaustion warning posted by the final failing attempt, when that
attempt failed by returning `False`. -/
def exhaustList (name : String) (max : Nat) (envs : Nat → AttemptEnv) :
    List AgentMessage :=
  if callFailsByRet (envs (max + 1)).call (max + 1) then
    [{ from_agent := name
       content := "Failed after " ++ toString max ++ " retries"
       timestamp := (envs (max + 1)).msgTime
       msg_type := "warning" }]
  else []

/-- The free-text elements a task contributes to the report are neither
task headers nor findings bullets (decidable hypothesis shape for the
report-structure theorem). -/
def cleanTaskText (t : AgentTask) : Bool :=
  !(isTaskHeaderLine (outputLine t)) && !(isFindingItemLine (outputLine t))
  && !(isTaskHeaderLine (strTake t.error 500))
  && !(isFindingItemLine (strTake t.error 500))

/-- `block` occurs contiguously (in order) inside `lines`. -/
def hasBlockAt (lines block : List String) : Bool :=
  (List.range (lines.length + 1)).any
    (fun i => (lines.drop i).take block.length == block)

/-- A concrete attempt environment realizing the spec's retry scenario:
attempts 1 and 2 fail (timeouts), attempt 3 succeeds in simulation mode. -/
def sampleRetryEnv : Nat → AttemptEnv := fun i =>
  if i = 3 then
    { call := CallBehavior.mock false, startTime := "s", msgTime := "m" }
  else
    { call := CallBehavior.live ProcOutcome.timedOut, startTime := "s",
      msgTime := "m" }

/-- A concrete sample session used to instantiate the report-structure
theorem: one completed and one failed task, one posted finding. -/
def sampleSession : Orchestrator :=
  { main_prompt := "obj"
    agent_count := 2
    test_mode := true
    max_retries := 0
    session_id := "sid"
    tasks :=
      [{ agent_id := "a1", prompt := "p1", name := "N1",
         status := AgentStatus.completed, result := "All good",
         error := "", started_at := none, ended_at := none,
         attempt := 1, max_retries := 0 },
       { agent_id := "a2", prompt := "p2", name := "N2",
         status := AgentStatus.failed, result := "",
         error := "crash", started_at := none, ended_at := none,
         attempt := 1, max_retries := 0 }]
    message_board := { messages :=
      [{ from_agent := "N1", content := "done", timestamp := "t1",
         msg_type := "info" },
       { from_agent := "N1", content := "Found potential issues",
         timestamp := "t2", msg_type := "finding" }] } }

/-- A successful attempt body sets `result` to the call's output, leaves
`error` untouched, and returns `True`. -/
theorem runCall_success (c : CallBehavior) (k : Nat) (n p : String)
    (hs : callSucceeds c k = true) :
    runCall c k n p =
      { newResult := some (callOutput c n p), newError := none,
        outcome := CallResult.ret true } := by
  cases c with
  | live pr =>
      cases pr with
      | finished stdout stderr rc =>
          simp only [callSucceeds, beq_iff_eq] at hs
          simp [runCall, real_execute, callOutput, hs]
      | timedOut => simp [callSucceeds] at hs
      | excCaught msg => simp [callSucceeds] at hs
  | mock failSim =>
      simp only [callSucceeds, Bool.not_eq_true', Bool.and_eq_false_iff] at hs
      simp only [runCall, mock_execute, callOutput]
      rcases hs with hs | hs <;> simp [hs]
  | raiseExc msg => simp [callSucceeds] at hs

/-- A failing attempt body either returns `False` (and then
`callFailsByRet` holds) or raises (and then it does not). -/
theorem runCall_fail_cases (c : CallBehavior) (k : Nat) (n p : String)
    (hf : callSucceeds c k = false) :
    (callFailsByRet c k = true ∧ ∃ nr ne,
        runCall c k n p =
          { newResult := nr, newError := ne,
            outcome := CallResult.ret false }) ∨
    (callFailsByRet c k = false ∧ ∃ m,
        runCall c k n p =
          { newResult := none, newError := none,
            outcome := CallResult.raised m }) := by
  cases c with
  | live pr =>
      left
      cases pr with
      | finished stdout stderr rc =>
          simp only [callSucceeds] at hf
          refine ⟨by simp [callFailsByRet, callSucceeds, hf], some stdout,
            some stderr, ?_⟩
          simp [runCall, real_execute, bne, hf]
      | timedOut =>
          exact ⟨by simp [callFailsByRet, callSucceeds], none,
            some "Execution timed out (5 min)", rfl⟩
      | excCaught msg =>
          exact ⟨by simp [callFailsByRet, callSucceeds], none, some msg, rfl⟩
  | mock failSim =>
      left
      simp only [callSucceeds] at hf
      have hf2 : (failSim && k == 1) = true := by
        revert hf; cases failSim && k == 1 <;> simp
      refine ⟨by simp [callFailsByRet, callSucceeds, hf2], none,
        some "Simulated failure", ?_⟩
      simp [runCall, mock_execute, hf2]
  | raiseExc msg =>
      right
      exact ⟨rfl, msg, rfl⟩

/-- One successful attempt: the loop sets the result, completes, posts the
info message (plus a finding when the keyword heuristic fires) and exits,
leaving `error` untouched. -/
theorem executeLoopFuel_step_success (envs : Nat → AttemptEnv) (fuel : Nat)
    (t : AgentTask) (b : MessageBoard) (h : t.attempt ≤ t.max_retries)
    (hs : callSucceeds (envs (t.attempt + 1)).call (t.attempt + 1) = true) :
    executeLoopFuel envs (fuel + 1) t b =
      ({ t with attempt := t.attempt + 1
                status := AgentStatus.completed
                started_at := some (envs (t.attempt + 1)).startTime
                result := callOutput (envs (t.attempt + 1)).call t.name
                  t.prompt },
       let out := callOutput (envs (t.attempt + 1)).call t.name t.prompt
       let b1 := b.post t.name "Completed analysis" "info"
         (envs (t.attempt + 1)).msgTime
       if strContains out.toLower "issue" ||
          strContains out.toLower "problem" then
         b1.post t.name "Found potential issues" "finding"
           (envs (t.attempt + 1)).msgTime
       else b1) := by
  have hrc := runCall_success (envs (t.attempt + 1)).call (t.attempt + 1)
    t.name t.prompt hs
  simp [executeLoopFuel, if_pos h, hrc]

/-- One attempt failing by returning `False`, with retries remaining: the
loop records the call's field effects, posts the retry warning and loops. -/
theorem executeLoopFuel_step_retry (envs : Nat → AttemptEnv) (fuel : Nat)
    (t : AgentTask) (b : MessageBoard) (nr ne : Option String)
    (h : t.attempt ≤ t.max_retries)
    (hrc : runCall (envs (t.attempt + 1)).call (t.attempt + 1) t.name
      t.prompt =
      { newResult := nr, newError := ne, outcome := CallResult.ret false })
    (h2 : t.attempt + 1 ≤ t.max_retries) :
    executeLoopFuel envs (fuel + 1) t b =
      executeLoopFuel envs fuel
        { t with attempt := t.attempt + 1
                 status := if t.attempt + 1 = 1 then AgentStatus.running
                           else AgentStatus.retrying
                 started_at := some (envs (t.attempt + 1)).startTime
                 result := nr.getD t.result
                 error := ne.getD t.error }
        (b.post t.name
          ("Retrying (attempt " ++ toString (t.attempt + 1 + 1) ++ ")")
          "warning" (envs (t.attempt + 1)).msgTime) := by
  simp [executeLoopFuel, if_pos h, hrc, if_pos h2]

/-- The final attempt failing by returning `False`: the loop records the
effects, turns the task `failed` and posts the exhaustion warning (the
guard then fails, ending the loop). -/
theorem executeLoopFuel_step_exhaust (envs : Nat → AttemptEnv) (fuel : Nat)
    (t : AgentTask) (b : MessageBoard) (nr ne : Option String)
    (h : t.attempt ≤ t.max_retries)
    (hrc : runCall (envs (t.attempt + 1)).call (t.attempt + 1) t.name
      t.prompt =
      { newResult := nr, newError := ne, outcome := CallResult.ret false })
    (h2 : ¬(t.attempt + 1 ≤ t.max_retries)) :
    executeLoopFuel envs (fuel + 1) t b =
      ({ t with attempt := t.attempt + 1
                status := AgentStatus.failed
                started_at := some (envs (t.attempt + 1)).startTime
                result := nr.getD t.result
                error := ne.getD t.error },
       b.post t.name
         ("Failed after " ++ toString t.max_retries ++ " retries")
         "warning" (envs (t.attempt + 1)).msgTime) := by
  simp [executeLoopFuel, if_pos h, hrc, if_neg h2]

/-- One attempt failing by raising, with retries remaining: the error is
recorded, nothing is posted, and the loop continues. -/
theorem executeLoopFuel_step_raise_retry (envs : Nat → AttemptEnv)
    (fuel : Nat) (t : AgentTask) (b : MessageBoard) (msg : String)
    (h : t.attempt ≤ t.max_retries)
    (hrc : runCall (envs (t.attempt + 1)).call (t.attempt + 1) t.name
      t.prompt =
      { newResult := none, newError := none,
        outcome := CallResult.raised msg })
    (h2 : t.attempt + 1 ≤ t.max_retries) :
    executeLoopFuel envs (fuel + 1) t b =
      executeLoopFuel envs fuel
        { t with attempt := t.attempt + 1
                 status := if t.attempt + 1 = 1 then AgentStatus.running
                           else AgentStatus.retrying
                 started_at := some (envs (t.attempt + 1)).startTime
                 error := msg }
        b := by
  simp [executeLoopFuel, if_pos h, hrc, if_pos h2]

/-- The final attempt failing by raising: the error is recorded, the task
turns `failed`, and nothing is posted. -/
theorem executeLoopFuel_step_raise_exhaust (envs : Nat → AttemptEnv)
    (fuel : Nat) (t : AgentTask) (b : MessageBoard) (msg : String)
    (h : t.attempt ≤ t.max_retries)
    (hrc : runCall (envs (t.attempt + 1)).call (t.attempt + 1) t.name
      t.prompt =
      { newResult := none, newError := none,
        outcome := CallResult.raised msg })
    (h2 : ¬(t.attempt + 1 ≤ t.max_retries)) :
    executeLoopFuel envs (fuel + 1) t b =
      ({ t with attempt := t.attempt + 1
                status := AgentStatus.failed
                started_at := some (envs (t.attempt + 1)).startTime
                error := msg },
       b) := by
  simp [executeLoopFuel, if_pos h, hrc, if_neg h2]

/-- With the loop guard false the loop body is never entered. -/
theorem executeLoopFuel_step_stop (envs : Nat → AttemptEnv) (fuel : Nat)
    (t : AgentTask) (b : MessageBoard) (h : ¬(t.attempt ≤ t.max_retries)) :
    executeLoopFuel envs (fuel + 1) t b = (t, b) := by
  simp [executeLoopFuel, if_neg h]

/-- No retries remain: no retry warnings. -/
theorem warnList_nil (name : String) (a : Nat) (envs : Nat → AttemptEnv) :
    warnList name a a envs = [] := by
  simp [warnList]

/-- Attempt `a + 1` failed by returning `False`: its retry warning opens
the list. -/
theorem warnList_cons (name : String) (a max : Nat)
    (envs : Nat → AttemptEnv) (h : a < max)
    (hbr : callFailsByRet (envs (a + 1)).call (a + 1) = true) :
    warnList name a max envs =
      { from_agent := name
        content := "Retrying (attempt " ++ toString (a + 1 + 1) ++ ")"
        timestamp := (envs (a + 1)).msgTime
        msg_type := "warning" } :: warnList name (a + 1) max envs := by
  have hsub : max - a = (max - (a + 1)) + 1 := by omega
  rw [warnList, hsub, List.range'_succ]
  simp [warnList, List.filter_cons, hbr]

/-- Attempt `a + 1` failed by raising: it contributes no warning. -/
theorem warnList_skip (name : String) (a max : Nat)
    (envs : Nat → AttemptEnv) (h : a < max)
    (hbr : callFailsByRet (envs (a + 1)).call (a + 1) = false) :
    warnList name a max envs = warnList name (a + 1) max envs := by
  have hsub : max - a = (max - (a + 1)) + 1 := by omega
  rw [warnList, hsub, List.range'_succ]
  simp [warnList, List.filter_cons, hbr]

/-- The retry loop never changes the immutable identity fields of a task. -/
theorem executeLoopFuel_preserves (envs : Nat → AttemptEnv) :
    ∀ (fuel : Nat) (t : AgentTask) (b : MessageBoard),
    (executeLoopFuel envs fuel t b).1.agent_id = t.agent_id ∧
    (executeLoopFuel envs fuel t b).1.name = t.name ∧
    (executeLoopFuel envs fuel t b).1.prompt = t.prompt ∧
    (executeLoopFuel envs fuel t b).1.max_retries = t.max_retries := by
  intro fuel
  induction fuel with
  | zero => exact fun t b => ⟨rfl, rfl, rfl, rfl⟩
  | succ n ih =>
    intro t b
    by_cases h : t.attempt ≤ t.max_retries
    · by_cases hs : callSucceeds (envs (t.attempt + 1)).call (t.attempt + 1)
        = true
      · rw [executeLoopFuel_step_success envs n t b h hs]
        exact ⟨rfl, rfl, rfl, rfl⟩
      · have hf : callSucceeds (envs (t.attempt + 1)).call (t.attempt + 1)
          = false := by
          revert hs
          cases callSucceeds (envs (t.attempt + 1)).call (t.attempt + 1) <;>
            simp
        rcases runCall_fail_cases (envs (t.attempt + 1)).call (t.attempt + 1)
            t.name t.prompt hf with
          ⟨hbr, nr, ne, hrc⟩ | ⟨hbr, msg, hrc⟩
        · by_cases h2 : t.attempt + 1 ≤ t.max_retries
          · rw [executeLoopFuel_step_retry envs n t b nr ne h hrc h2]
            simpa using ih _ _
          · rw [executeLoopFuel_step_exhaust envs n t b nr ne h hrc h2]
            exact ⟨rfl, rfl, rfl, rfl⟩
        · by_cases h2 : t.attempt + 1 ≤ t.max_retries
          · rw [executeLoopFuel_step_raise_retry envs n t b msg h hrc h2]
            simpa using ih _ _
          · rw [executeLoopFuel_step_raise_exhaust envs n t b msg h hrc h2]
            exact ⟨rfl, rfl, rfl, rfl⟩
    · rw [executeLoopFuel_step_stop envs n t b h]
      exact ⟨rfl, rfl, rfl, rfl⟩

/-- Once entered with enough fuel (and the loop is always entered with
exactly enough), the retry loop ends in a terminal status. -/
theorem executeLoopFuel_terminal (envs : Nat → AttemptEnv) :
    ∀ (fuel : Nat) (t : AgentTask) (b : MessageBoard),
    t.max_retries + 1 - t.attempt ≤ fuel → t.attempt ≤ t.max_retries →
    (executeLoopFuel envs fuel t b).1.status = AgentStatus.completed ∨
    (executeLoopFuel envs fuel t b).1.status = AgentStatus.failed := by
  intro fuel
  induction fuel with
  | zero => intro t b hfuel hg; omega
  | succ n ih =>
    intro t b hfuel hg
    by_cases hs : callSucceeds (envs (t.attempt + 1)).call (t.attempt + 1)
      = true
    · rw [executeLoopFuel_step_success envs n t b hg hs]
      exact Or.inl rfl
    · have hf : callSucceeds (envs (t.attempt + 1)).call (t.attempt + 1)
        = false := by
        revert hs
        cases callSucceeds (envs (t.attempt + 1)).call (t.attempt + 1) <;>
          simp
      rcases runCall_fail_cases (envs (t.attempt + 1)).call (t.attempt + 1)
          t.name t.prompt hf with
        ⟨hbr, nr, ne, hrc⟩ | ⟨hbr, msg, hrc⟩
      · by_cases h2 : t.attempt + 1 ≤ t.max_retries
        · rw [executeLoopFuel_step_retry envs n t b nr ne hg hrc h2]
          refine ih _ _ ?_ ?_ <;> simp <;> omega
        · rw [executeLoopFuel_step_exhaust envs n t b nr ne hg hrc h2]
          exact Or.inr rfl
      · by_cases h2 : t.attempt + 1 ≤ t.max_retries
        · rw [executeLoopFuel_step_raise_retry envs n t b msg hg hrc h2]
          refine ih _ _ ?_ ?_ <;> simp <;> omega
        · rw [executeLoopFuel_step_raise_exhaust envs n t b msg hg hrc h2]
          exact Or.inr rfl

/-- When every remaining attempt fails, the loop ends `failed` with
`attempt = max_retries + 1`, and the board gains exactly one retry warning
per non-final attempt that failed by returning `False`, followed by the
exhaustion warning when the final attempt failed by returning `False`
(attempts failing by raising post nothing). -/
theorem executeLoopFuel_all_fail (envs : Nat → AttemptEnv) :
    ∀ (fuel : Nat) (t : AgentTask) (b : MessageBoard),
    t.max_retries + 1 - t.attempt ≤ fuel → t.attempt ≤ t.max_retries →
    (∀ i, t.attempt < i → i ≤ t.max_retries + 1 →
      callSucceeds (envs i).call i = false) →
    (executeLoopFuel envs fuel t b).1.status = AgentStatus.failed ∧
    (executeLoopFuel envs fuel t b).1.attempt = t.max_retries + 1 ∧
    (executeLoopFuel envs fuel t b).2.messages =
      b.messages ++ warnList t.name t.attempt t.max_retries envs ++
        exhaustList t.name t.max_retries envs := by
  intro fuel
  induction fuel with
  | zero => intro t b hfuel hg hfail; omega
  | succ n ih =>
    intro t b hfuel hg hfail
    have hf : callSucceeds (envs (t.attempt + 1)).call (t.attempt + 1)
      = false := hfail (t.attempt + 1) (by omega) (by omega)
    have hfuel2 : t.max_retries + 1 - (t.attempt + 1) ≤ n := by omega
    have hfail2 : ∀ i, t.attempt + 1 < i → i ≤ t.max_retries + 1 →
        callSucceeds (envs i).call i = false := by
      intro i h1i h2i
      exact hfail i (by omega) h2i
    rcases runCall_fail_cases (envs (t.attempt + 1)).call (t.attempt + 1)
        t.name t.prompt hf with
      ⟨hbr, nr, ne, hrc⟩ | ⟨hbr, msg, hrc⟩
    · by_cases h2 : t.attempt + 1 ≤ t.max_retries
      · rw [executeLoopFuel_step_retry envs n t b nr ne hg hrc h2]
        obtain ⟨hst, hat, hmsg⟩ := ih
          { t with attempt := t.attempt + 1
                   status := if t.attempt + 1 = 1 then AgentStatus.running
                             else AgentStatus.retrying
                   started_at := some (envs (t.attempt + 1)).startTime
                   result := nr.getD t.result
                   error := ne.getD t.error }
          (b.post t.name
            ("Retrying (attempt " ++ toString (t.attempt + 1 + 1) ++ ")")
            "warning" (envs (t.attempt + 1)).msgTime)
          hfuel2 h2 hfail2
        refine ⟨hst, hat, ?_⟩
        rw [hmsg]
        rw [warnList_cons t.name t.attempt t.max_retries envs
          (by omega) hbr]
        simp [MessageBoard.post]
      · have ha : t.attempt = t.max_retries := by omega
        rw [executeLoopFuel_step_exhaust envs n t b nr ne hg hrc h2]
        refine ⟨rfl, by simp [ha], ?_⟩
        have hexh : exhaustList t.name t.max_retries envs =
          [{ from_agent := t.name
             content := "Failed after " ++ toString t.max_retries ++
               " retries"
             timestamp := (envs (t.max_retries + 1)).msgTime
             msg_type := "warning" }] := by
          rw [exhaustList, if_pos]
          rw [← ha]
          exact hbr
        rw [ha, warnList_nil, hexh, ← ha]
        simp [MessageBoard.post]
    · by_cases h2 : t.attempt + 1 ≤ t.max_retries
      · rw [executeLoopFuel_step_raise_retry envs n t b msg hg hrc h2]
        obtain ⟨hst, hat, hmsg⟩ := ih
          { t with attempt := t.attempt + 1
                   status := if t.attempt + 1 = 1 then AgentStatus.running
                             else AgentStatus.retrying
                   started_at := some (envs (t.attempt + 1)).startTime
                   error := msg }
          b hfuel2 h2 hfail2
        refine ⟨hst, hat, ?_⟩
        rw [hmsg]
        rw [warnList_skip t.name t.attempt t.max_retries envs
          (by omega) hbr]
      · have ha : t.attempt = t.max_retries := by omega
        rw [executeLoopFuel_step_raise_exhaust envs n t b msg hg hrc h2]
        refine ⟨rfl, by simp [ha], ?_⟩
        have hexh : exhaustList t.name t.max_retries envs = [] := by
          rw [exhaustList, if_neg]
          rw [← ha]
          simp [hbr]
        rw [ha, warnList_nil, hexh, ← ha]
        simp

/-- Skipping a block of failing attempts: after `d` failed attempts the
loop continues from the same task with `attempt` advanced by `d` and the
identity fields unchanged, consuming `d` units of fuel. -/
theorem executeLoopFuel_skip (envs : Nat → AttemptEnv) :
    ∀ (d fuel : Nat) (t : AgentTask) (b : MessageBoard), d ≤ fuel →
    t.attempt + d ≤ t.max_retries →
    (∀ i, t.attempt < i → i ≤ t.attempt + d →
      callSucceeds (envs i).call i = false) →
    ∃ t' b', executeLoopFuel envs fuel t b =
        executeLoopFuel envs (fuel - d) t' b' ∧
      t'.attempt = t.attempt + d ∧ t'.name = t.name ∧
      t'.prompt = t.prompt ∧ t'.agent_id = t.agent_id ∧
      t'.max_retries = t.max_retries := by
  intro d
  induction d with
  | zero =>
    intro fuel t b hd hg hfail
    exact ⟨t, b, by rw [Nat.sub_zero], rfl, rfl, rfl, rfl, rfl⟩
  | succ m ih =>
    intro fuel t b hd hg hfail
    obtain ⟨f, rfl⟩ : ∃ f, fuel = f + 1 := ⟨fuel - 1, by omega⟩
    have hg1 : t.attempt ≤ t.max_retries := by omega
    have hf : callSucceeds (envs (t.attempt + 1)).call (t.attempt + 1)
      = false := hfail (t.attempt + 1) (by omega) (by omega)
    have hfail2 : ∀ i, t.attempt + 1 < i → i ≤ t.attempt + 1 + m →
        callSucceeds (envs i).call i = false := by
      intro i h1i h2i
      exact hfail i (by omega) (by omega)
    have hsub : f + 1 - (m + 1) = f - m := by omega
    rcases runCall_fail_cases (envs (t.attempt + 1)).call (t.attempt + 1)
        t.name t.prompt hf with
      ⟨hbr, nr, ne, hrc⟩ | ⟨hbr, msg, hrc⟩
    · have h2 : t.attempt + 1 ≤ t.max_retries := by omega
      rw [executeLoopFuel_step_retry envs f t b nr ne hg1 hrc h2]
      obtain ⟨t', b', heq, h1', h2', h3', h4', h5'⟩ := ih f
        { t with attempt := t.attempt + 1
                 status := if t.attempt + 1 = 1 then AgentStatus.running
                           else AgentStatus.retrying
                 started_at := some (envs (t.attempt + 1)).startTime
                 result := nr.getD t.result
                 error := ne.getD t.error }
        (b.post t.name
          ("Retrying (attempt " ++ toString (t.attempt + 1 + 1) ++ ")")
          "warning" (envs (t.attempt + 1)).msgTime)
        (by omega) (by simpa using (by omega : t.attempt + 1 + m ≤
          t.max_retries)) hfail2
      have h1n : t'.attempt = t.attempt + 1 + m := h1'
      refine ⟨t', b', ?_, by omega, h2', h3', h4', h5'⟩
      rw [heq, hsub]
    · have h2 : t.attempt + 1 ≤ t.max_retries := by omega
      rw [executeLoopFuel_step_raise_retry envs f t b msg hg1 hrc h2]
      obtain ⟨t', b', heq, h1', h2', h3', h4', h5'⟩ := ih f
        { t with attempt := t.attempt + 1
                 status := if t.attempt + 1 = 1 then AgentStatus.running
                           else AgentStatus.retrying
                 started_at := some (envs (t.attempt + 1)).startTime
                 error := msg }
        b (by omega) (by simpa using (by omega : t.attempt + 1 + m ≤
          t.max_retries)) hfail2
      have h1n : t'.attempt = t.attempt + 1 + m := h1'
      refine ⟨t', b', ?_, by omega, h2', h3', h4', h5'⟩
      rw [heq, hsub]

/-- Unpacking a decidable all-attempts-fail hypothesis. -/
theorem all_range'_fail (envs : Nat → AttemptEnv) (s n : Nat)
    (h : (List.range' s n).all
      (fun i => !(callSucceeds (envs i).call i)) = true) :
    ∀ i, s ≤ i → i < s + n → callSucceeds (envs i).call i = false := by
  intro i h1 h2
  have := List.all_eq_true.mp h i (by
    rw [List.mem_range'_1]
    exact ⟨h1, h2⟩)
  simpa using this

/-- `execute` only stamps `ended_at` after the loop. -/
theorem execute_parts (t : AgentTask) (b : MessageBoard)
    (envs : Nat → AttemptEnv) (endTime : String) :
    (t.execute b envs endTime).1.status = (executeLoop t b envs).1.status ∧
    (t.execute b envs endTime).1.attempt = (executeLoop t b envs).1.attempt ∧
    (t.execute b envs endTime).1.result = (executeLoop t b envs).1.result ∧
    (t.execute b envs endTime).1.error = (executeLoop t b envs).1.error ∧
    (t.execute b envs endTime).2 = (executeLoop t b envs).2 := by
  exact ⟨rfl, rfl, rfl, rfl, rfl⟩

/-- C1: for every task whose every attempt fails, `execute()` leaves the
task with status `Failed` and `attempt = maxRetries + 1` exactly (attempts
are counted `1..maxRetries+1`, incremented before each attempt). -/
theorem claim_execute_all_attempts_fail (t : AgentTask) (b : MessageBoard)
    (envs : Nat → AttemptEnv) (endTime : String)
    (h0 : t.attempt = 0)
    (hfail : (List.range' 1 (t.max_retries + 1)).all
      (fun i => !(callSucceeds (envs i).call i)) = true) :
    (t.execute b envs endTime).1.status = AgentStatus.failed ∧
    (t.execute b envs endTime).1.attempt = t.max_retries + 1 := by
  have hfail' := all_range'_fail envs 1 (t.max_retries + 1) hfail
  have h := executeLoopFuel_all_fail envs (t.max_retries + 1 - t.attempt)
    t b (le_refl _) (by omega)
    (fun i h1 h2 => hfail' i (by omega) (by omega))
  obtain ⟨hs, ha, hr, he, hb⟩ := execute_parts t b envs endTime
  rw [hs, ha]
  exact ⟨h.1, h.2.1⟩

/-- C1 witness: a two-retry task whose three attempts all time out ends
`Failed` with `attempt = 3`. -/
theorem claim_execute_all_attempts_fail_witness :
    (AgentTask.init "id1" "p" "A" 2).attempt = 0 ∧
    (List.range' 1 ((AgentTask.init "id1" "p" "A" 2).max_retries + 1)).all
      (fun i => !(callSucceeds
        ((fun _ => { call := CallBehavior.live ProcOutcome.timedOut,
                     startTime := "s", msgTime := "m" } :
          Nat → AttemptEnv) i).call i)) = true ∧
    (((AgentTask.init "id1" "p" "A" 2).execute { messages := [] }
        (fun _ => { call := CallBehavior.live ProcOutcome.timedOut,
                    startTime := "s", msgTime := "m" }) "e").1.status =
      AgentStatus.failed ∧
     ((AgentTask.init "id1" "p" "A" 2).execute { messages := [] }
        (fun _ => { call := CallBehavior.live ProcOutcome.timedOut,
                    startTime := "s", msgTime := "m" }) "e").1.attempt =
      (AgentTask.init "id1" "p" "A" 2).max_retries + 1) :=
  ⟨rfl, rfl,
   claim_execute_all_attempts_fail (AgentTask.init "id1" "p" "A" 2)
     { messages := [] }
     (fun _ => { call := CallBehavior.live ProcOutcome.timedOut,
                 startTime := "s", msgTime := "m" }) "e" rfl rfl⟩

/-- C3: `execute()` always returns the task in a terminal status
(`Completed` or `Failed`); the retry loop terminates because `attempt`
strictly increases up to the `max_retries` bound (in the embedding this is
witnessed by the loop consuming its exact iteration budget
`max_retries + 1`). -/
theorem claim_execute_terminal (t : AgentTask) (b : MessageBoard)
    (envs : Nat → AttemptEnv) (endTime : String) (h0 : t.attempt = 0) :
    (t.execute b envs endTime).1.status = AgentStatus.completed ∨
    (t.execute b envs endTime).1.status = AgentStatus.failed := by
  have h := executeLoopFuel_terminal envs (t.max_retries + 1 - t.attempt)
    t b (le_refl _) (by omega)
  obtain ⟨hs, _, _, _, _⟩ := execute_parts t b envs endTime
  rw [hs]
  exact h

/-- C3 witness: a freshly initialized task executed against a succeeding
mock engine ends in a terminal status. -/
theorem claim_execute_terminal_witness :
    (AgentTask.init "id3" "p" "A" 2).attempt = 0 ∧
    (((AgentTask.init "id3" "p" "A" 2).execute { messages := [] }
        (fun _ => { call := CallBehavior.mock false, startTime := "s",
                    msgTime := "m" }) "e").1.status =
      AgentStatus.completed ∨
     ((AgentTask.init "id3" "p" "A" 2).execute { messages := [] }
        (fun _ => { call := CallBehavior.mock false, startTime := "s",
                    msgTime := "m" }) "e").1.status = AgentStatus.failed) :=
  ⟨rfl,
   claim_execute_terminal (AgentTask.init "id3" "p" "A" 2) { messages := [] }
     (fun _ => { call := CallBehavior.mock false, startTime := "s",
                 msgTime := "m" }) "e" rfl⟩

/-- C4 counterexample: a single attempt that fails by raising an exception
exhausts the task (status `Failed`) yet posts no message at all — contrary
to the claim that a `warning` is posted in all failure cases, including
attempts that fail by raising. -/
theorem claim_warning_on_failure_counterexample :
    ((AgentTask.init "id4" "p" "A" 0).execute { messages := [] }
        (fun _ => { call := CallBehavior.raiseExc "boom", startTime := "s",
                    msgTime := "m" }) "e").1.status = AgentStatus.failed ∧
    ((AgentTask.init "id4" "p" "A" 0).execute { messages := [] }
        (fun _ => { call := CallBehavior.raiseExc "boom", startTime := "s",
                    msgTime := "m" }) "e").2.messages = [] := by
  exact ⟨rfl, rfl⟩

/-- C2 counterexample: in live mode an external call returning an empty
stdout with exit status 0 makes the attempt succeed, so the task reaches
`Completed` with an empty `result` — contrary to the claim that success
requires a non-empty result. -/
theorem claim_attempt_success_counterexample :
    ((AgentTask.init "id2" "p" "A" 0).execute { messages := [] }
        (fun _ => { call := CallBehavior.live
                      (ProcOutcome.finished "" "err-ignored" 0),
                    startTime := "s", msgTime := "m" }) "e").1.status =
      AgentStatus.completed ∧
    ((AgentTask.init "id2" "p" "A" 0).execute { messages := [] }
        (fun _ => { call := CallBehavior.live
                      (ProcOutcome.finished "" "err-ignored" 0),
                    startTime := "s", msgTime := "m" }) "e").1.result =
      "" := by
  exact ⟨rfl, rfl⟩

/-- C2 (amended): an attempt succeeds iff the underlying call signals
success (`True` return; zero exit status in live mode), regardless of
whether the output text is empty; a task whose attempts `1..k-1` fail and
whose attempt `k` succeeds (`k ≤ maxRetries+1`) reaches `Completed` with
`attempt = k` and `result` equal to the successful call's output (which
may be empty). -/
theorem claim_success_on_attempt_k (t : AgentTask) (b : MessageBoard)
    (envs : Nat → AttemptEnv) (endTime : String) (k : Nat)
    (h0 : t.attempt = 0) (hk1 : 1 ≤ k) (hk2 : k ≤ t.max_retries + 1)
    (hfail : (List.range' 1 (k - 1)).all
      (fun i => !(callSucceeds (envs i).call i)) = true)
    (hsucc : callSucceeds (envs k).call k = true) :
    (t.execute b envs endTime).1.status = AgentStatus.completed ∧
    (t.execute b envs endTime).1.attempt = k ∧
    (t.execute b envs endTime).1.result =
      callOutput (envs k).call t.name t.prompt := by
  have hfail' := all_range'_fail envs 1 (k - 1) hfail
  obtain ⟨t', b', heq, hatt, hname, hprompt, hid, hmax⟩ :=
    executeLoopFuel_skip envs (k - 1) (t.max_retries + 1 - t.attempt) t b
      (by omega) (by omega) (fun i h1 h2 => hfail' i (by omega) (by omega))
  have hg' : t'.attempt ≤ t'.max_retries := by omega
  have hkk : t'.attempt + 1 = k := by omega
  obtain ⟨f, hf⟩ : ∃ f, t.max_retries + 1 - t.attempt - (k - 1) = f + 1 :=
    ⟨t.max_retries + 1 - t.attempt - (k - 1) - 1, by omega⟩
  have hsucc' : callSucceeds (envs (t'.attempt + 1)).call (t'.attempt + 1)
    = true := by rw [hkk]; exact hsucc
  have hstep := executeLoopFuel_step_success envs f t' b' hg' hsucc'
  obtain ⟨hs, ha, hr, _, _⟩ := execute_parts t b envs endTime
  rw [hs, ha, hr, executeLoop, heq, hf, hstep]
  refine ⟨rfl, ?_, ?_⟩
  · show t'.attempt + 1 = k
    exact hkk
  · show callOutput (envs (t'.attempt + 1)).call t'.name t'.prompt = _
    rw [hkk, hname, hprompt]

/-- C2 witness: attempt 1 times out, attempt 2 returns "ok" with exit 0;
the task completes on attempt 2 with result "ok". -/
theorem claim_success_on_attempt_k_witness :
    (AgentTask.init "id6" "p" "A" 1).attempt = 0 ∧ 1 ≤ 2 ∧
    2 ≤ (AgentTask.init "id6" "p" "A" 1).max_retries + 1 ∧
    (List.range' 1 (2 - 1)).all
      (fun i => !(callSucceeds
        ((fun i => if i = 2 then
            { call := CallBehavior.live (ProcOutcome.finished "ok" "" 0),
              startTime := "s", msgTime := "m" }
          else
            { call := CallBehavior.live ProcOutcome.timedOut,
              startTime := "s", msgTime := "m" } :
          (i : Nat) → AttemptEnv) i).call i)) = true ∧
    callSucceeds ((fun i => if i = 2 then
        { call := CallBehavior.live (ProcOutcome.finished "ok" "" 0),
          startTime := "s", msgTime := "m" }
      else
        { call := CallBehavior.live ProcOutcome.timedOut,
          startTime := "s", msgTime := "m" } :
      (i : Nat) → AttemptEnv) 2).call 2 = true ∧
    (((AgentTask.init "id6" "p" "A" 1).execute { messages := [] }
        (fun i => if i = 2 then
            { call := CallBehavior.live (ProcOutcome.finished "ok" "" 0),
              startTime := "s", msgTime := "m" }
          else
            { call := CallBehavior.live ProcOutcome.timedOut,
              startTime := "s", msgTime := "m" }) "e").1.status =
        AgentStatus.completed ∧
      ((AgentTask.init "id6" "p" "A" 1).execute { messages := [] }
        (fun i => if i = 2 then
            { call := CallBehavior.live (ProcOutcome.finished "ok" "" 0),
              startTime := "s", msgTime := "m" }
          else
            { call := CallBehavior.live ProcOutcome.timedOut,
              startTime := "s", msgTime := "m" }) "e").1.attempt = 2 ∧
      ((AgentTask.init "id6" "p" "A" 1).execute { messages := [] }
        (fun i => if i = 2 then
            { call := CallBehavior.live (ProcOutcome.finished "ok" "" 0),
              startTime := "s", msgTime := "m" }
          else
            { call := CallBehavior.live ProcOutcome.timedOut,
              startTime := "s", msgTime := "m" }) "e").1.result =
        callOutput ((fun i => if i = 2 then
            { call := CallBehavior.live (ProcOutcome.finished "ok" "" 0),
              startTime := "s", msgTime := "m" }
          else
            { call := CallBehavior.live ProcOutcome.timedOut,
              startTime := "s", msgTime := "m" } :
          (i : Nat) → AttemptEnv) 2).call
          (AgentTask.init "id6" "p" "A" 1).name
          (AgentTask.init "id6" "p" "A" 1).prompt) :=
  ⟨rfl, by decide, by decide, rfl, rfl,
   claim_success_on_attempt_k (AgentTask.init "id6" "p" "A" 1)
     { messages := [] }
     (fun i => if i = 2 then
         { call := CallBehavior.live (ProcOutcome.finished "ok" "" 0),
           startTime := "s", msgTime := "m" }
       else
         { call := CallBehavior.live ProcOutcome.timedOut,
           startTime := "s", msgTime := "m" }) "e" 2 rfl (by decide)
     (by decide) rfl rfl⟩

/-- A block placed between two list segments is found by `hasBlockAt`. -/
theorem hasBlockAt_append (L block R : List String) :
    hasBlockAt (L ++ block ++ R) block = true := by
  rw [hasBlockAt, List.any_eq_true]
  refine ⟨L.length, ?_, ?_⟩
  · rw [List.mem_range, List.length_append, List.length_append]
    omega
  · rw [List.append_assoc, List.drop_left, List.take_left]
    simp

/-- `hasBlockAt` from an explicit decomposition. -/
theorem hasBlockAt_of_eq (lines L block R : List String)
    (h : lines = L ++ block ++ R) : hasBlockAt lines block = true := by
  rw [h]
  exact hasBlockAt_append L block R

/-- A task with a nonempty `error` contributes its error block to the
synthesis report, whatever its status. -/
theorem errorBlock_in_synthesize (o : Orchestrator) (elapsed : String)
    (t : AgentTask) (hmem : t ∈ o.tasks) (he : t.error ≠ "") :
    hasBlockAt (o.synthesize elapsed) (errorBlock t) = true := by
  obtain ⟨l1, l2, hsplit⟩ := List.append_of_mem hmem
  apply hasBlockAt_of_eq (o.synthesize elapsed)
    (synthesizeHeader o elapsed ++ l1.flatMap taskSection ++
      [taskHeaderLine t,
       "",
       "- **Status**: " ++ t.status.value,
       "- **Attempts**: " ++ toString t.attempt,
       "",
       "**Output:**",
       "```",
       outputLine t,
       "```",
       ""])
    (errorBlock t)
    (["---\n"] ++ l2.flatMap taskSection ++
      (let findings := o.message_board.get_findings
       if findings ≠ [] then
         ["## Shared Findings", ""] ++ findings.map findingLine ++ [""]
       else []))
  rw [Orchestrator.synthesize, hsplit, List.flatMap_append,
    List.flatMap_cons]
  rw [taskSection, if_pos he]
  simp [List.append_assoc]

/-- C10: the success branch of `execute()` never touches `error`: if
attempt `a+1` fails by returning `False` while recording error text `e1`
and attempt `a+2` succeeds, the task ends `Completed` with `error` still
equal to `e1`, and the synthesis report of any session containing the task
renders an Error section for this `Completed` task. -/
theorem claim_success_preserves_prior_error (t : AgentTask)
    (b : MessageBoard) (envs : Nat → AttemptEnv) (endTime : String)
    (e1 : String) (nr : Option String) (o : Orchestrator) (elapsed : String)
    (hg : t.attempt + 1 ≤ t.max_retries)
    (hfailrec : runCall (envs (t.attempt + 1)).call (t.attempt + 1) t.name
      t.prompt =
      { newResult := nr, newError := some e1,
        outcome := CallResult.ret false })
    (he1 : e1 ≠ "")
    (hsucc : callSucceeds (envs (t.attempt + 2)).call (t.attempt + 2)
      = true)
    (hmem : (t.execute b envs endTime).1 ∈ o.tasks) :
    (t.execute b envs endTime).1.status = AgentStatus.completed ∧
    (t.execute b envs endTime).1.error = e1 ∧
    (t.execute b envs endTime).1.attempt = t.attempt + 2 ∧
    hasBlockAt (o.synthesize elapsed)
      (errorBlock (t.execute b envs endTime).1) = true := by
  have hg1 : t.attempt ≤ t.max_retries := by omega
  obtain ⟨f, hf⟩ : ∃ f, t.max_retries + 1 - t.attempt = f + 1 + 1 :=
    ⟨t.max_retries - 1 - t.attempt, by omega⟩
  have hstep1 := executeLoopFuel_step_retry envs (f + 1) t b nr (some e1)
    hg1 hfailrec hg
  have hstep2 := executeLoopFuel_step_success envs f
    { t with attempt := t.attempt + 1
             status := if t.attempt + 1 = 1 then AgentStatus.running
                       else AgentStatus.retrying
             started_at := some (envs (t.attempt + 1)).startTime
             result := nr.getD t.result
             error := (some e1).getD t.error }
    (b.post t.name
      ("Retrying (attempt " ++ toString (t.attempt + 1 + 1) ++ ")")
      "warning" (envs (t.attempt + 1)).msgTime)
    hg hsucc
  have hloop : (executeLoop t b envs).1.status = AgentStatus.completed ∧
      (executeLoop t b envs).1.error = e1 ∧
      (executeLoop t b envs).1.attempt = t.attempt + 2 := by
    rw [executeLoop, hf, hstep1, hstep2]
    exact ⟨rfl, rfl, rfl⟩
  obtain ⟨hs, ha, _, he2, _⟩ := execute_parts t b envs endTime
  have herr : (t.execute b envs endTime).1.error = e1 := by
    rw [he2]; exact hloop.2.1
  refine ⟨by rw [hs]; exact hloop.1, herr,
    by rw [ha]; exact hloop.2.2, ?_⟩
  exact errorBlock_in_synthesize o elapsed _ hmem (by rw [herr]; exact he1)

/-- C10 witness: attempt 1 exits nonzero recording error "bad", attempt 2
succeeds in mock mode; the task completes with `error = "bad"` and the
report of a session holding it contains the Error block. -/
theorem claim_success_preserves_prior_error_witness :
    (AgentTask.init "id7" "p" "A" 1).attempt + 1 ≤
      (AgentTask.init "id7" "p" "A" 1).max_retries ∧
    runCall (((fun i => if i = 1 then
        { call := CallBehavior.live (ProcOutcome.finished "" "bad" 1),
          startTime := "s", msgTime := "m" }
      else
        { call := CallBehavior.mock false, startTime := "s",
          msgTime := "m" } : (i : Nat) → AttemptEnv))
        ((AgentTask.init "id7" "p" "A" 1).attempt + 1)).call
      ((AgentTask.init "id7" "p" "A" 1).attempt + 1)
      (AgentTask.init "id7" "p" "A" 1).name
      (AgentTask.init "id7" "p" "A" 1).prompt =
      { newResult := some "", newError := some "bad",
        outcome := CallResult.ret false } ∧
    ("bad" : String) ≠ "" ∧
    callSucceeds (((fun i => if i = 1 then
        { call := CallBehavior.live (ProcOutcome.finished "" "bad" 1),
          startTime := "s", msgTime := "m" }
      else
        { call := CallBehavior.mock false, startTime := "s",
          msgTime := "m" } : (i : Nat) → AttemptEnv))
        ((AgentTask.init "id7" "p" "A" 1).attempt + 2)).call
      ((AgentTask.init "id7" "p" "A" 1).attempt + 2) = true ∧
    (((AgentTask.init "id7" "p" "A" 1).execute { messages := [] }
        (fun i => if i = 1 then
          { call := CallBehavior.live (ProcOutcome.finished "" "bad" 1),
            startTime := "s", msgTime := "m" }
        else
          { call := CallBehavior.mock false, startTime := "s",
            msgTime := "m" }) "e").1.status = AgentStatus.completed ∧
     ((AgentTask.init "id7" "p" "A" 1).execute { messages := [] }
        (fun i => if i = 1 then
          { call := CallBehavior.live (ProcOutcome.finished "" "bad" 1),
            startTime := "s", msgTime := "m" }
        else
          { call := CallBehavior.mock false, startTime := "s",
            msgTime := "m" }) "e").1.error = "bad" ∧
     ((AgentTask.init "id7" "p" "A" 1).execute { messages := [] }
        (fun i => if i = 1 then
          { call := CallBehavior.live (ProcOutcome.finished "" "bad" 1),
            startTime := "s", msgTime := "m" }
        else
          { call := CallBehavior.mock false, startTime := "s",
            msgTime := "m" }) "e").1.attempt =
       (AgentTask.init "id7" "p" "A" 1).attempt + 2 ∧
     hasBlockAt
       (Orchestrator.synthesize
         { main_prompt := "obj", agent_count := 1, test_mode := false,
           max_retries := 1, session_id := "sid",
           tasks := [((AgentTask.init "id7" "p" "A" 1).execute
             { messages := [] }
             (fun i => if i = 1 then
               { call := CallBehavior.live
                   (ProcOutcome.finished "" "bad" 1),
                 startTime := "s", msgTime := "m" }
             else
               { call := CallBehavior.mock false, startTime := "s",
                 msgTime := "m" }) "e").1],
           message_board := { messages := [] } } "el")
       (errorBlock ((AgentTask.init "id7" "p" "A" 1).execute
         { messages := [] }
         (fun i => if i = 1 then
           { call := CallBehavior.live (ProcOutcome.finished "" "bad" 1),
             startTime := "s", msgTime := "m" }
         else
           { call := CallBehavior.mock false, startTime := "s",
             msgTime := "m" }) "e").1) = true) :=
  ⟨by decide, rfl, by decide, rfl,
   claim_success_preserves_prior_error (AgentTask.init "id7" "p" "A" 1)
     { messages := [] }
     (fun i => if i = 1 then
       { call := CallBehavior.live (ProcOutcome.finished "" "bad" 1),
         startTime := "s", msgTime := "m" }
     else
       { call := CallBehavior.mock false, startTime := "s",
         msgTime := "m" }) "e" "bad" (some "")
     { main_prompt := "obj", agent_count := 1, test_mode := false,
       max_retries := 1, session_id := "sid",
       tasks := [((AgentTask.init "id7" "p" "A" 1).execute
         { messages := [] }
         (fun i => if i = 1 then
           { call := CallBehavior.live (ProcOutcome.finished "" "bad" 1),
             startTime := "s", msgTime := "m" }
         else
           { call := CallBehavior.mock false, startTime := "s",
             msgTime := "m" }) "e").1],
       message_board := { messages := [] } } "el"
     (by decide) rfl (by decide) (by decide)
     (List.mem_cons_self _ _)⟩

/-- C7: for every board history and nonempty timestamp bound `s`,
`get_messages (some s)` returns exactly the messages with timestamp
strictly greater than `s`, as a subsequence of the history (insertion
order); with the bound omitted it returns the full history; and
`get_findings` is exactly the insertion-ordered subsequence of messages
whose type is `finding`.  (Timestamps are ISO datetime strings, hence
nonempty; Python's `if since:` treats `""` like an omitted bound.) -/
theorem claim_board_queries (board : MessageBoard) (s : String)
    (hs : s ≠ "") :
    board.get_messages (some s) =
      board.messages.filter (fun m => decide (s < m.timestamp)) ∧
    List.Sublist (board.get_messages (some s)) board.messages ∧
    board.get_messages none = board.messages ∧
    board.get_findings =
      board.messages.filter (fun m => m.msg_type == "finding") ∧
    List.Sublist board.get_findings board.messages := by
  have h1 : board.get_messages (some s) =
      board.messages.filter (fun m => decide (s < m.timestamp)) := by
    simp only [MessageBoard.get_messages, if_neg hs]
  refine ⟨h1, ?_, rfl, rfl, List.filter_sublist _⟩
  rw [h1]
  exact List.filter_sublist _

/-- C7 witness: a concrete two-message board queried at bound "b". -/
theorem claim_board_queries_witness :
    ("b" : String) ≠ "" ∧
    (({ messages :=
        [{ from_agent := "A", content := "x", timestamp := "a",
           msg_type := "info" },
         { from_agent := "B", content := "y", timestamp := "c",
           msg_type := "finding" }] } : MessageBoard).get_messages
        (some "b") =
      ({ messages :=
        [{ from_agent := "A", content := "x", timestamp := "a",
           msg_type := "info" },
         { from_agent := "B", content := "y", timestamp := "c",
           msg_type := "finding" }] } : MessageBoard).messages.filter
        (fun m => decide ("b" < m.timestamp)) ∧
     List.Sublist
       (({ messages :=
         [{ from_agent := "A", content := "x", timestamp := "a",
            msg_type := "info" },
          { from_agent := "B", content := "y", timestamp := "c",
            msg_type := "finding" }] } : MessageBoard).get_messages
         (some "b"))
       ({ messages :=
         [{ from_agent := "A", content := "x", timestamp := "a",
            msg_type := "info" },
          { from_agent := "B", content := "y", timestamp := "c",
            msg_type := "finding" }] } : MessageBoard).messages ∧
     ({ messages :=
        [{ from_agent := "A", content := "x", timestamp := "a",
           msg_type := "info" },
         { from_agent := "B", content := "y", timestamp := "c",
           msg_type := "finding" }] } : MessageBoard).get_messages none =
      ({ messages :=
        [{ from_agent := "A", content := "x", timestamp := "a",
           msg_type := "info" },
         { from_agent := "B", content := "y", timestamp := "c",
           msg_type := "finding" }] } : MessageBoard).messages ∧
     ({ messages :=
        [{ from_agent := "A", content := "x", timestamp := "a",
           msg_type := "info" },
         { from_agent := "B", content := "y", timestamp := "c",
           msg_type := "finding" }] } : MessageBoard).get_findings =
      ({ messages :=
        [{ from_agent := "A", content := "x", timestamp := "a",
           msg_type := "info" },
         { from_agent := "B", content := "y", timestamp := "c",
           msg_type := "finding" }] } : MessageBoard).messages.filter
        (fun m => m.msg_type == "finding") ∧
     List.Sublist
       ({ messages :=
         [{ from_agent := "A", content := "x", timestamp := "a",
            msg_type := "info" },
          { from_agent := "B", content := "y", timestamp := "c",
            msg_type := "finding" }] } : MessageBoard).get_findings
       ({ messages :=
         [{ from_agent := "A", content := "x", timestamp := "a",
            msg_type := "info" },
          { from_agent := "B", content := "y", timestamp := "c",
            msg_type := "finding" }] } : MessageBoard).messages) :=
  ⟨by decide,
   claim_board_queries
     { messages :=
       [{ from_agent := "A", content := "x", timestamp := "a",
          msg_type := "info" },
        { from_agent := "B", content := "y", timestamp := "c",
          msg_type := "finding" }] } "b" (by decide)⟩

/-- C8: two `save_state` snapshots of the same unmutated session carry
identical task and message arrays and differ only in the top-level
timestamp. -/
theorem claim_save_state_idempotent (o : Orchestrator) (t1 t2 : String) :
    (o.save_state t1).tasks = (o.save_state t2).tasks ∧
    (o.save_state t1).messages = (o.save_state t2).messages ∧
    (o.save_state t1).session_id = (o.save_state t2).session_id ∧
    (o.save_state t1).main_prompt = (o.save_state t2).main_prompt ∧
    { o.save_state t1 with timestamp := t2 } = o.save_state t2 :=
  ⟨rfl, rfl, rfl, rfl, rfl⟩

/-- C9 counterexample: a run whose state-file write fails aborts with that
error — `_run_simple` calls `save_state` outside any `try`, so the
exception propagates instead of being absorbed best-effort. -/
theorem claim_persist_best_effort_counterexample :
    ((Orchestrator.init "p" 1 false 0 "sid").initialize_tasks
        (fun _ => "tid")).run_simple (fun _ => Except.error "disk full")
      (fun _ _ => { call := CallBehavior.mock false, startTime := "s",
                    msgTime := "m" })
      (fun _ => "e") (fun _ => "n") = Except.error "disk full" := by
  rfl

/-- C9 (amended): an error raised during `persistState()` inside the run
loop is not absorbed: whenever the session has at least one task, a
failing state write makes `_run_simple` propagate that error and abort the
run. -/
theorem claim_persist_error_propagates (o : Orchestrator)
    (envs : Nat → Nat → AttemptEnv) (endTimes nowTimes : Nat → String)
    (e : String) (h : o.tasks ≠ []) :
    o.run_simple (fun _ => Except.error e) envs endTimes nowTimes =
      Except.error e := by
  rw [Orchestrator.run_simple]
  cases htasks : o.tasks with
  | nil => exact absurd htasks h
  | cons t ts => simp [htasks, runSimpleAux]

/-- C9 witness: a concrete one-task session with a failing write. -/
theorem claim_persist_error_propagates_witness :
    ((Orchestrator.init "q" 1 true 0 "sid2").initialize_tasks
        (fun _ => "tid")).tasks ≠ [] ∧
    ((Orchestrator.init "q" 1 true 0 "sid2").initialize_tasks
        (fun _ => "tid")).run_simple (fun _ => Except.error "boom")
      (fun _ _ => { call := CallBehavior.mock false, startTime := "s",
                    msgTime := "m" })
      (fun _ => "e") (fun _ => "n") = Except.error "boom" :=
  ⟨by decide,
   claim_persist_error_propagates
     ((Orchestrator.init "q" 1 true 0 "sid2").initialize_tasks
       (fun _ => "tid"))
     (fun _ _ => { call := CallBehavior.mock false, startTime := "s",
                   msgTime := "m" })
     (fun _ => "e") (fun _ => "n") "boom" (by decide)⟩

/-- `execute` preserves the task's immutable identity fields. -/
theorem execute_preserves_identity (t : AgentTask) (b : MessageBoard)
    (envs : Nat → AttemptEnv) (endTime : String) :
    (t.execute b envs endTime).1.agent_id = t.agent_id ∧
    (t.execute b envs endTime).1.name = t.name ∧
    (t.execute b envs endTime).1.prompt = t.prompt ∧
    (t.execute b envs endTime).1.max_retries = t.max_retries :=
  executeLoopFuel_preserves envs (t.max_retries + 1 - t.attempt) t b

/-- `execute` on a task with attempts remaining ends terminal. -/
theorem execute_terminal_aux (t : AgentTask) (b : MessageBoard)
    (envs : Nat → AttemptEnv) (endTime : String)
    (h0 : t.attempt ≤ t.max_retries) :
    (t.execute b envs endTime).1.status = AgentStatus.completed ∨
    (t.execute b envs endTime).1.status = AgentStatus.failed :=
  executeLoopFuel_terminal envs (t.max_retries + 1 - t.attempt) t b
    (le_refl _) h0

/-- Running a list of fresh tasks yields one result task per input task,
each terminal, with identity fields preserved in order. -/
theorem runTasksSeq_c5 (envs : Nat → Nat → AttemptEnv)
    (endTimes : Nat → String) :
    ∀ (ts : List AgentTask) (b : MessageBoard) (i : Nat),
    (∀ t ∈ ts, t.attempt = 0) →
    (runTasksSeq envs endTimes ts b i).1.length = ts.length ∧
    (runTasksSeq envs endTimes ts b i).1.all
      (fun t => t.status == AgentStatus.completed ||
        t.status == AgentStatus.failed) = true ∧
    (runTasksSeq envs endTimes ts b i).1.map
      (fun t => (t.agent_id, t.name, t.prompt, t.max_retries)) =
      ts.map (fun t => (t.agent_id, t.name, t.prompt, t.max_retries)) := by
  intro ts
  induction ts with
  | nil => intro b i h; exact ⟨rfl, rfl, rfl⟩
  | cons t rest ih =>
    intro b i h
    have h0 : t.attempt = 0 := h t (List.mem_cons_self t rest)
    have hterm := execute_terminal_aux t b (envs i) (endTimes i) (by omega)
    have hid := execute_preserves_identity t b (envs i) (endTimes i)
    obtain ⟨ih1, ih2, ih3⟩ := ih ((t.execute b (envs i) (endTimes i)).2)
      (i + 1) (fun x hx => h x (List.mem_cons_of_mem t hx))
    refine ⟨?_, ?_, ?_⟩
    · show ((t.execute b (envs i) (endTimes i)).1 ::
        (runTasksSeq envs endTimes rest
          ((t.execute b (envs i) (endTimes i)).2) (i + 1)).1).length = _
      rw [List.length_cons, ih1, List.length_cons]
    · show ((t.execute b (envs i) (endTimes i)).1 ::
        (runTasksSeq envs endTimes rest
          ((t.execute b (envs i) (endTimes i)).2) (i + 1)).1).all
        (fun t => t.status == AgentStatus.completed ||
          t.status == AgentStatus.failed) = true
      rw [List.all_cons, ih2]
      rcases hterm with hc | hc <;> simp [hc]
    · show ((t.execute b (envs i) (endTimes i)).1 ::
        (runTasksSeq envs endTimes rest
          ((t.execute b (envs i) (endTimes i)).2) (i + 1)).1).map
        (fun t => (t.agent_id, t.name, t.prompt, t.max_retries)) = _
      rw [List.map_cons, List.map_cons, ih3, hid.1, hid.2.1, hid.2.2.1,
        hid.2.2.2]

/-- C5: for every `agentCount ≥ 1`, after `run()` completes the session
holds exactly `agentCount` tasks, each in a terminal status (`Completed`
or `Failed`), and the task list is exactly the one fixed at
initialization (same identity fields, same order — nothing added or
removed). -/
theorem claim_run_invariants (main_prompt session_id : String)
    (agent_count max_retries : Nat) (test_mode : Bool) (ids : Nat → String)
    (envs : Nat → Nat → AttemptEnv) (endTimes : Nat → String)
    (h : 1 ≤ agent_count) :
    ((Orchestrator.init main_prompt agent_count test_mode max_retries
        session_id).run ids envs endTimes).tasks.length = agent_count ∧
    ((Orchestrator.init main_prompt agent_count test_mode max_retries
        session_id).run ids envs endTimes).tasks.all
      (fun t => t.status == AgentStatus.completed ||
        t.status == AgentStatus.failed) = true ∧
    ((Orchestrator.init main_prompt agent_count test_mode max_retries
        session_id).run ids envs endTimes).tasks.map
      (fun t => (t.agent_id, t.name, t.prompt, t.max_retries)) =
      ((Orchestrator.init main_prompt agent_count test_mode max_retries
        session_id).initialize_tasks ids).tasks.map
      (fun t => (t.agent_id, t.name, t.prompt, t.max_retries)) := by
  have hatt : ∀ t ∈ ((Orchestrator.init main_prompt agent_count test_mode
      max_retries session_id).initialize_tasks ids).tasks,
      t.attempt = 0 := by
    intro t ht
    simp only [Orchestrator.initialize_tasks, Orchestrator.init,
      List.nil_append, List.mem_map] at ht
    obtain ⟨i, hi, rfl⟩ := ht
    rfl
  have hlen : ((Orchestrator.init main_prompt agent_count test_mode
      max_retries session_id).initialize_tasks ids).tasks.length =
      agent_count := by
    simp [Orchestrator.initialize_tasks, Orchestrator.init]
  have key := runTasksSeq_c5 envs endTimes
    ((Orchestrator.init main_prompt agent_count test_mode max_retries
      session_id).initialize_tasks ids).tasks
    ((Orchestrator.init main_prompt agent_count test_mode max_retries
      session_id).initialize_tasks ids).message_board 0 hatt
  exact ⟨key.1.trans hlen, key.2.1, key.2.2⟩

/-- C5 witness: a two-agent session run in mock mode. -/
theorem claim_run_invariants_witness :
    1 ≤ 2 ∧
    (((Orchestrator.init "obj" 2 true 1 "sid").run (fun i => toString i)
        (fun _ _ => { call := CallBehavior.mock false, startTime := "s",
                      msgTime := "m" }) (fun _ => "e")).tasks.length = 2 ∧
     ((Orchestrator.init "obj" 2 true 1 "sid").run (fun i => toString i)
        (fun _ _ => { call := CallBehavior.mock false, startTime := "s",
                      msgTime := "m" }) (fun _ => "e")).tasks.all
       (fun t => t.status == AgentStatus.completed ||
         t.status == AgentStatus.failed) = true ∧
     ((Orchestrator.init "obj" 2 true 1 "sid").run (fun i => toString i)
        (fun _ _ => { call := CallBehavior.mock false, startTime := "s",
                      msgTime := "m" }) (fun _ => "e")).tasks.map
       (fun t => (t.agent_id, t.name, t.prompt, t.max_retries)) =
       ((Orchestrator.init "obj" 2 true 1 "sid").initialize_tasks
         (fun i => toString i)).tasks.map
       (fun t => (t.agent_id, t.name, t.prompt, t.max_retries))) :=
  ⟨by decide,
   claim_run_invariants "obj" "sid" 2 1 true (fun i => toString i)
     (fun _ _ => { call := CallBehavior.mock false, startTime := "s",
                   msgTime := "m" }) (fun _ => "e") (by decide)⟩

/-- Prefix testing ignores a suffix appended after enough characters. -/
theorem strStarts_append_left (a s p : String)
    (h : p.data.length ≤ a.data.length) :
    strStarts (a ++ s) p = strStarts a p := by
  rw [strStarts, strStarts, String.data_append,
    List.take_append_eq_append_take, Nat.sub_eq_zero_of_le h,
    List.take_zero, List.append_nil]

/-- Prefix testing over a two-step appended literal. -/
theorem strStarts_lit2 (a x b p : String)
    (h : p.data.length ≤ a.data.length) :
    strStarts (a ++ x ++ b) p = strStarts a p := by
  have h2 : p.data.length ≤ (a ++ x).data.length := by
    rw [String.data_append, List.length_append]; omega
  rw [strStarts_append_left (a ++ x) b p h2, strStarts_append_left a x p h]

/-- Prefix testing over a three-step appended literal. -/
theorem strStarts_lit3 (a x b c p : String)
    (h : p.data.length ≤ a.data.length) :
    strStarts (a ++ x ++ b ++ c) p = strStarts a p := by
  have h3 : p.data.length ≤ (a ++ x ++ b).data.length := by
    rw [String.data_append, String.data_append, List.length_append,
      List.length_append]
    omega
  rw [strStarts_append_left (a ++ x ++ b) c p h3, strStarts_lit2 a x b p h]

/-- Every string starts with itself, whatever follows. -/
theorem strStarts_self (a s : String) : strStarts (a ++ s) a = true := by
  rw [strStarts, String.data_append, List.take_append_eq_append_take,
    Nat.sub_self, List.take_zero, List.append_nil, List.take_length]
  simp

/-- Task headers are classified as task headers. -/
theorem th_headerLine (t : AgentTask) :
    isTaskHeaderLine (taskHeaderLine t) = true := by
  rw [taskHeaderLine, isTaskHeaderLine,
    strStarts_lit3 "### " t.name " " (statusEmoji t) "### " (by decide)]
  decide

/-- Task headers are not findings bullets. -/
theorem fi_headerLine (t : AgentTask) :
    isFindingItemLine (taskHeaderLine t) = false := by
  rw [taskHeaderLine, isFindingItemLine,
    strStarts_lit3 "### " t.name " " (statusEmoji t) "- **" (by decide),
    show strStarts "### " "- **" = false from by decide]
  simp

/-- The status bullet of a task section is not a task header. -/
theorem th_statusLine (t : AgentTask) :
    isTaskHeaderLine ("- **Status**: " ++ t.status.value) = false := by
  rw [isTaskHeaderLine,
    strStarts_append_left "- **Status**: " t.status.value "### "
      (by decide)]
  decide

/-- The status bullet of a task section is not a findings bullet. -/
theorem fi_statusLine (t : AgentTask) :
    isFindingItemLine ("- **Status**: " ++ t.status.value) = false := by
  have hmid := strStarts_self "- **Status**: " t.status.value
  simp [isFindingItemLine, hmid]

/-- The attempts bullet of a task section is not a task header. -/
theorem th_attemptsLine (n : Nat) :
    isTaskHeaderLine ("- **Attempts**: " ++ toString n) = false := by
  rw [isTaskHeaderLine,
    strStarts_append_left "- **Attempts**: " (toString n) "### "
      (by decide)]
  decide

/-- The attempts bullet of a task section is not a findings bullet. -/
theorem fi_attemptsLine (n : Nat) :
    isFindingItemLine ("- **Attempts**: " ++ toString n) = false := by
  have hmid := strStarts_self "- **Attempts**: " (toString n)
  simp [isFindingItemLine, hmid]

/-- A findings bullet is never a task header. -/
theorem th_findingLine (m : AgentMessage) :
    isTaskHeaderLine (findingLine m) = false := by
  rw [findingLine, isTaskHeaderLine,
    strStarts_lit3 "- **" m.from_agent "**: " m.content "### "
      (by decide)]
  decide

/-- The session-id preamble line is neither header nor bullet. -/
theorem neutral_sessionLine (s : String) :
    isTaskHeaderLine ("**Session ID**: `" ++ s ++ "`") = false ∧
    isFindingItemLine ("**Session ID**: `" ++ s ++ "`") = false := by
  constructor
  · rw [isTaskHeaderLine,
      strStarts_lit2 "**Session ID**: `" s "`" "### " (by decide)]
    decide
  · rw [isFindingItemLine,
      strStarts_lit2 "**Session ID**: `" s "`" "- **" (by decide),
      show strStarts "**Session ID**: `" "- **" = false from by decide]
    simp

/-- The objective preamble line is neither header nor bullet. -/
theorem neutral_objectiveLine (s : String) :
    isTaskHeaderLine ("**Objective**: " ++ s) = false ∧
    isFindingItemLine ("**Objective**: " ++ s) = false := by
  constructor
  · rw [isTaskHeaderLine,
      strStarts_append_left "**Objective**: " s "### " (by decide)]
    decide
  · rw [isFindingItemLine,
      strStarts_append_left "**Objective**: " s "- **" (by decide),
      show strStarts "**Objective**: " "- **" = false from by decide]
    simp

/-- The duration preamble line is neither header nor bullet. -/
theorem neutral_durationLine (s : String) :
    isTaskHeaderLine ("**Duration**: " ++ s) = false ∧
    isFindingItemLine ("**Duration**: " ++ s) = false := by
  constructor
  · rw [isTaskHeaderLine,
      strStarts_append_left "**Duration**: " s "### " (by decide)]
    decide
  · rw [isFindingItemLine,
      strStarts_append_left "**Duration**: " s "- **" (by decide),
      show strStarts "**Duration**: " "- **" = false from by decide]
    simp

/-- The agent-count preamble line is neither header nor bullet. -/
theorem neutral_agentsLine (s : String) :
    isTaskHeaderLine ("**Agents**: " ++ s) = false ∧
    isFindingItemLine ("**Agents**: " ++ s) = false := by
  constructor
  · rw [isTaskHeaderLine,
      strStarts_append_left "**Agents**: " s "### " (by decide)]
    decide
  · rw [isFindingItemLine,
      strStarts_append_left "**Agents**: " s "- **" (by decide),
      show strStarts "**Agents**: " "- **" = false from by decide]
    simp

/-- The report preamble contains no task header. -/
theorem filter_synthesizeHeader_th (o : Orchestrator) (e : String) :
    (synthesizeHeader o e).filter isTaskHeaderLine = [] := by
  rw [synthesizeHeader]
  simp +decide [List.filter_cons, (neutral_sessionLine o.session_id).1,
    (neutral_objectiveLine o.main_prompt).1, (neutral_durationLine e).1,
    (neutral_agentsLine (toString o.agent_count)).1]

/-- The report preamble contains no findings bullet. -/
theorem filter_synthesizeHeader_fi (o : Orchestrator) (e : String) :
    (synthesizeHeader o e).filter isFindingItemLine = [] := by
  rw [synthesizeHeader]
  simp +decide [List.filter_cons, (neutral_sessionLine o.session_id).2,
    (neutral_objectiveLine o.main_prompt).2, (neutral_durationLine e).2,
    (neutral_agentsLine (toString o.agent_count)).2]

/-- A task section contributes exactly its header line to the
header-filtered report. -/
theorem filter_taskSection_th (t : AgentTask)
    (h1 : isTaskHeaderLine (outputLine t) = false)
    (h2 : isTaskHeaderLine (strTake t.error 500) = false) :
    (taskSection t).filter isTaskHeaderLine = [taskHeaderLine t] := by
  rw [taskSection, errorBlock]
  rcases eq_or_ne t.error "" with he | he
  · simp +decide [he, List.filter_append, List.filter_cons,
      th_headerLine, th_statusLine, th_attemptsLine, h1]
  · simp +decide [he, List.filter_append, List.filter_cons,
      th_headerLine, th_statusLine, th_attemptsLine, h1, h2]

/-- A task section contributes no findings bullet. -/
theorem filter_taskSection_fi (t : AgentTask)
    (h1 : isFindingItemLine (outputLine t) = false)
    (h2 : isFindingItemLine (strTake t.error 500) = false) :
    (taskSection t).filter isFindingItemLine = [] := by
  rw [taskSection, errorBlock]
  rcases eq_or_ne t.error "" with he | he
  · simp +decide [he, List.filter_append, List.filter_cons,
      fi_headerLine, fi_statusLine, fi_attemptsLine, h1]
  · simp +decide [he, List.filter_append, List.filter_cons,
      fi_headerLine, fi_statusLine, fi_attemptsLine, h1, h2]

/-- The concatenated task sections filter down to the header lines, one
per task, in task order. -/
theorem filter_flatMap_th (ts : List AgentTask)
    (h : ∀ t ∈ ts, cleanTaskText t = true) :
    (ts.flatMap taskSection).filter isTaskHeaderLine =
      ts.map taskHeaderLine := by
  induction ts with
  | nil => rfl
  | cons t rest ih =>
    have hc := h t (List.mem_cons_self t rest)
    rw [cleanTaskText] at hc
    simp only [Bool.and_eq_true, Bool.not_eq_true'] at hc
    obtain ⟨⟨⟨ha, ha2⟩, hb⟩, hb2⟩ := hc
    rw [List.flatMap_cons, List.filter_append,
      filter_taskSection_th t ha hb,
      ih (fun x hx => h x (List.mem_cons_of_mem t hx)), List.map_cons]
    rfl

/-- The concatenated task sections contain no findings bullet. -/
theorem filter_flatMap_fi (ts : List AgentTask)
    (h : ∀ t ∈ ts, cleanTaskText t = true) :
    (ts.flatMap taskSection).filter isFindingItemLine = [] := by
  induction ts with
  | nil => rfl
  | cons t rest ih =>
    have hc := h t (List.mem_cons_self t rest)
    rw [cleanTaskText] at hc
    simp only [Bool.and_eq_true, Bool.not_eq_true'] at hc
    obtain ⟨⟨⟨ha, ha2⟩, hb⟩, hb2⟩ := hc
    rw [List.flatMap_cons, List.filter_append,
      filter_taskSection_fi t ha2 hb2,
      ih (fun x hx => h x (List.mem_cons_of_mem t hx))]
    rfl

/-- The shared-findings section contains no task header. -/
theorem filter_findingsTail_th (fs : List AgentMessage) :
    (if fs ≠ [] then
        ["## Shared Findings", ""] ++ fs.map findingLine ++ [""]
      else ([] : List String)).filter isTaskHeaderLine = [] := by
  rcases eq_or_ne fs [] with h | h
  · simp [h]
  · rw [if_pos h]
    simp +decide [List.filter_append, List.filter_cons]
    intro a ha
    simp [th_findingLine]

/-- The shared-findings section filters down to exactly its bullets. -/
theorem filter_findingsTail_fi (fs : List AgentMessage)
    (h2 : ∀ m ∈ fs, isFindingItemLine (findingLine m) = true) :
    (if fs ≠ [] then
        ["## Shared Findings", ""] ++ fs.map findingLine ++ [""]
      else ([] : List String)).filter isFindingItemLine =
      fs.map findingLine := by
  rcases eq_or_ne fs [] with h | h
  · simp [h]
  · rw [if_pos h]
    simp +decide [List.filter_append, List.filter_cons]
    exact h2

/-- C6: the synthesis report lists every task exactly once, in
task-creation order regardless of completion order (the header-line
subsequence of the report is exactly the per-task header lines in task
order); failed tasks are included, and any task with recorded error text
gets its error block rendered rather than being omitted; and the
shared-findings section lists exactly the finding-typed messages in
posting order. -/
theorem claim_synthesize_report (o : Orchestrator) (elapsed : String)
    (h1 : o.tasks.all cleanTaskText = true)
    (h2 : (o.message_board.get_findings).all
      (fun m => isFindingItemLine (findingLine m)) = true) :
    (o.synthesize elapsed).filter isTaskHeaderLine =
      o.tasks.map taskHeaderLine ∧
    (o.synthesize elapsed).filter isFindingItemLine =
      (o.message_board.get_findings).map findingLine ∧
    o.tasks.all (fun t => (t.error == "") ||
      hasBlockAt (o.synthesize elapsed) (errorBlock t)) = true := by
  have h1' : ∀ t ∈ o.tasks, cleanTaskText t = true := List.all_eq_true.mp h1
  have h2' : ∀ m ∈ o.message_board.get_findings,
      isFindingItemLine (findingLine m) = true := List.all_eq_true.mp h2
  refine ⟨?_, ?_, ?_⟩
  · rw [Orchestrator.synthesize]
    simp only [List.filter_append]
    rw [filter_synthesizeHeader_th, filter_flatMap_th o.tasks h1',
      filter_findingsTail_th]
    simp
  · rw [Orchestrator.synthesize]
    simp only [List.filter_append]
    rw [filter_synthesizeHeader_fi, filter_flatMap_fi o.tasks h1',
      filter_findingsTail_fi _ h2']
    simp
  · rw [List.all_eq_true]
    intro t ht
    rcases eq_or_ne t.error "" with he | he
    · simp [he]
    · have hblock := errorBlock_in_synthesize o elapsed t ht he
      simp [hblock]

/-- C6 witness: the sample session satisfies the hypotheses, and its
report has exactly the two task headers in creation order, exactly the
one findings bullet, and the failed task's error block. -/
theorem claim_synthesize_report_witness :
    sampleSession.tasks.all cleanTaskText = true ∧
    (sampleSession.message_board.get_findings).all
      (fun m => isFindingItemLine (findingLine m)) = true ∧
    ((sampleSession.synthesize "el").filter isTaskHeaderLine =
      sampleSession.tasks.map taskHeaderLine ∧
     (sampleSession.synthesize "el").filter isFindingItemLine =
      (sampleSession.message_board.get_findings).map findingLine ∧
     sampleSession.tasks.all (fun t => (t.error == "") ||
       hasBlockAt (sampleSession.synthesize "el") (errorBlock t)) =
       true) :=
  ⟨by decide, by decide,
   claim_synthesize_report sampleSession "el" (by decide) (by decide)⟩

/-- Skipping a block of failing attempts while tracking the board exactly:
after `d` failed attempts the loop continues with `attempt` advanced by
`d`, the identity fields unchanged, and the board extended by precisely
the retry warnings of the attempts in the block that failed by returning
`False` (attempts that failed by raising contributed nothing). -/
theorem executeLoopFuel_skip_trace (envs : Nat → AttemptEnv) :
    ∀ (d fuel : Nat) (t : AgentTask) (b : MessageBoard), d ≤ fuel →
    t.attempt + d ≤ t.max_retries →
    (∀ i, t.attempt < i → i ≤ t.attempt + d →
      callSucceeds (envs i).call i = false) →
    ∃ t', executeLoopFuel envs fuel t b =
        executeLoopFuel envs (fuel - d) t'
          { messages := b.messages ++
              warnList t.name t.attempt (t.attempt + d) envs } ∧
      t'.attempt = t.attempt + d ∧ t'.name = t.name ∧
      t'.prompt = t.prompt ∧ t'.max_retries = t.max_retries := by
  intro d
  induction d with
  | zero =>
    intro fuel t b hd hg hfail
    refine ⟨t, ?_, rfl, rfl, rfl, rfl⟩
    have hb : (⟨b.messages ++
          warnList t.name t.attempt (t.attempt + 0) envs⟩ : MessageBoard)
        = b := by
      simp [warnList]
    rw [Nat.sub_zero, hb]
  | succ m ih =>
    intro fuel t b hd hg hfail
    obtain ⟨f, rfl⟩ : ∃ f, fuel = f + 1 := ⟨fuel - 1, by omega⟩
    have hg1 : t.attempt ≤ t.max_retries := by omega
    have hf : callSucceeds (envs (t.attempt + 1)).call (t.attempt + 1)
      = false := hfail (t.attempt + 1) (by omega) (by omega)
    have hfail2 : ∀ i, t.attempt + 1 < i → i ≤ t.attempt + 1 + m →
        callSucceeds (envs i).call i = false := by
      intro i h1i h2i
      exact hfail i (by omega) (by omega)
    have hsub : f + 1 - (m + 1) = f - m := by omega
    have hidx : t.attempt + 1 + m = t.attempt + (m + 1) := by omega
    rcases runCall_fail_cases (envs (t.attempt + 1)).call (t.attempt + 1)
        t.name t.prompt hf with
      ⟨hbr, nr, ne, hrc⟩ | ⟨hbr, msg, hrc⟩
    · have h2 : t.attempt + 1 ≤ t.max_retries := by omega
      rw [executeLoopFuel_step_retry envs f t b nr ne hg1 hrc h2]
      obtain ⟨t', heq, h1', h2', h3', h4'⟩ := ih f
        { t with attempt := t.attempt + 1
                 status := if t.attempt + 1 = 1 then AgentStatus.running
                           else AgentStatus.retrying
                 started_at := some (envs (t.attempt + 1)).startTime
                 result := nr.getD t.result
                 error := ne.getD t.error }
        (b.post t.name
          ("Retrying (attempt " ++ toString (t.attempt + 1 + 1) ++ ")")
          "warning" (envs (t.attempt + 1)).msgTime)
        (by omega) (by simpa using (by omega : t.attempt + 1 + m ≤
          t.max_retries)) hfail2
      have h1n : t'.attempt = t.attempt + 1 + m := h1'
      have hboard : (⟨(b.post t.name
            ("Retrying (attempt " ++ toString (t.attempt + 1 + 1) ++ ")")
            "warning" (envs (t.attempt + 1)).msgTime).messages ++
            warnList t.name (t.attempt + 1) (t.attempt + 1 + m) envs⟩ :
          MessageBoard) =
          (⟨b.messages ++
            warnList t.name t.attempt (t.attempt + (m + 1)) envs⟩ :
          MessageBoard) := by
        rw [← hidx]
        rw [warnList_cons t.name t.attempt (t.attempt + 1 + m) envs
          (by omega) hbr]
        simp [MessageBoard.post, List.append_assoc]
      refine ⟨t', ?_, by omega, h2', h3', h4'⟩
      rw [heq, hsub, hboard]
    · have h2 : t.attempt + 1 ≤ t.max_retries := by omega
      rw [executeLoopFuel_step_raise_retry envs f t b msg hg1 hrc h2]
      obtain ⟨t', heq, h1', h2', h3', h4'⟩ := ih f
        { t with attempt := t.attempt + 1
                 status := if t.attempt + 1 = 1 then AgentStatus.running
                           else AgentStatus.retrying
                 started_at := some (envs (t.attempt + 1)).startTime
                 error := msg }
        b (by omega) (by simpa using (by omega : t.attempt + 1 + m ≤
          t.max_retries)) hfail2
      have h1n : t'.attempt = t.attempt + 1 + m := h1'
      have hboard : (⟨b.messages ++
            warnList t.name (t.attempt + 1) (t.attempt + 1 + m) envs⟩ :
          MessageBoard) =
          (⟨b.messages ++
            warnList t.name t.attempt (t.attempt + (m + 1)) envs⟩ :
          MessageBoard) := by
        rw [← hidx]
        rw [warnList_skip t.name t.attempt (t.attempt + 1 + m) envs
          (by omega) hbr]
      refine ⟨t', ?_, by omega, h2', h3', h4'⟩
      rw [heq, hsub, hboard]

/-- C4 (amended): in every execution, each attempt that fails by
returning a non-success result posts its retry `warning` when attempts
remain, and the exhaustion `warning` is posted exactly when the final
attempt fails by returning a non-success result as the task turns
`Failed`; attempts that fail by raising an exception post nothing (their
error is recorded and, on exhaustion, the task turns `Failed` silently).
Concretely, for a run whose attempts `1..k-1` fail and whose attempt `k`
(if any succeeds) succeeds, the board gains exactly the retry warnings of
the return-failed attempts among `1..k-1` followed by the completion
`info` message (and the heuristic `finding`); and when all
`maxRetries + 1` attempts fail, exactly those warnings followed by the
exhaustion warning if the final failure returned non-success. -/
theorem claim_failure_warning_messages (t : AgentTask) (b : MessageBoard)
    (envs : Nat → AttemptEnv) (endTime : String) (k : Nat)
    (h0 : t.attempt = 0) (hk1 : 1 ≤ k) (hk2 : k ≤ t.max_retries + 1)
    (hfail : (List.range' 1 (k - 1)).all
      (fun i => !(callSucceeds (envs i).call i)) = true) :
    (callSucceeds (envs k).call k = true →
      (t.execute b envs endTime).2.messages =
        b.messages ++ warnList t.name 0 (k - 1) envs ++
          ({ from_agent := t.name, content := "Completed analysis",
             timestamp := (envs k).msgTime, msg_type := "info" } ::
            (if strContains
                 (callOutput (envs k).call t.name t.prompt).toLower
                 "issue" ||
               strContains
                 (callOutput (envs k).call t.name t.prompt).toLower
                 "problem" then
               [{ from_agent := t.name,
                  content := "Found potential issues",
                  timestamp := (envs k).msgTime,
                  msg_type := "finding" }]
             else []))) ∧
    (k = t.max_retries + 1 → callSucceeds (envs k).call k = false →
      (t.execute b envs endTime).2.messages =
        b.messages ++ warnList t.name 0 t.max_retries envs ++
          exhaustList t.name t.max_retries envs) := by
  have hfail' := all_range'_fail envs 1 (k - 1) hfail
  obtain ⟨_, _, _, _, hb⟩ := execute_parts t b envs endTime
  constructor
  · intro hsucc
    rw [hb, executeLoop]
    obtain ⟨t', heq, hatt, hname, hprompt, hmax⟩ :=
      executeLoopFuel_skip_trace envs (k - 1)
        (t.max_retries + 1 - t.attempt) t b (by omega) (by omega)
        (fun i h1 h2 => hfail' i (by omega) (by omega))
    rw [heq]
    obtain ⟨f, hfuel⟩ : ∃ f,
        t.max_retries + 1 - t.attempt - (k - 1) = f + 1 :=
      ⟨t.max_retries + 1 - t.attempt - (k - 1) - 1, by omega⟩
    have hg' : t'.attempt ≤ t'.max_retries := by omega
    have hkk : t'.attempt + 1 = k := by omega
    have hsucc' : callSucceeds (envs (t'.attempt + 1)).call
        (t'.attempt + 1) = true := by rw [hkk]; exact hsucc
    rw [hfuel, executeLoopFuel_step_success envs f t' _ hg' hsucc']
    have hk' : k - 1 + 1 = k := by omega
    simp only [MessageBoard.post, hname, hprompt, hkk, hatt, h0,
      Nat.zero_add, hk']
    by_cases hc : (strContains
        (callOutput (envs k).call t.name t.prompt).toLower "issue" ||
      strContains
        (callOutput (envs k).call t.name t.prompt).toLower "problem")
      = true
    · simp [hc, MessageBoard.post, List.append_assoc]
    · have hc' : (strContains
          (callOutput (envs k).call t.name t.prompt).toLower "issue" ||
        strContains
          (callOutput (envs k).call t.name t.prompt).toLower "problem")
        = false := by
        revert hc
        cases strContains
            (callOutput (envs k).call t.name t.prompt).toLower "issue" ||
          strContains
            (callOutput (envs k).call t.name t.prompt).toLower
              "problem" <;> simp
      simp [hc', MessageBoard.post, List.append_assoc]
  · intro hk hfk
    rw [hb]
    have h := executeLoopFuel_all_fail envs
      (t.max_retries + 1 - t.attempt) t b (le_refl _) (by omega)
      (by
        intro i h1 h2
        rcases eq_or_ne i k with rfl | hne
        · exact hfk
        · exact hfail' i (by omega) (by omega))
    rw [← h0]
    exact h.2.2

/-- C4 witness: the spec's scenario — `maxRetries = 2`, attempts 1 and 2
fail by returning non-success (timeouts), attempt 3 succeeds — yields
exactly the two retry warnings followed by the completion info message. -/
theorem claim_failure_warning_messages_witness :
    (AgentTask.init "id5" "p" "A" 2).attempt = 0 ∧
    1 ≤ 3 ∧
    3 ≤ (AgentTask.init "id5" "p" "A" 2).max_retries + 1 ∧
    (List.range' 1 (3 - 1)).all
      (fun i => !(callSucceeds (sampleRetryEnv i).call i)) = true ∧
    callSucceeds (sampleRetryEnv 3).call 3 = true ∧
    ((AgentTask.init "id5" "p" "A" 2).execute { messages := [] }
        sampleRetryEnv "e").2.messages =
      ({ messages := [] } : MessageBoard).messages ++
        warnList (AgentTask.init "id5" "p" "A" 2).name 0 (3 - 1)
          sampleRetryEnv ++
        ({ from_agent := (AgentTask.init "id5" "p" "A" 2).name,
           content := "Completed analysis",
           timestamp := (sampleRetryEnv 3).msgTime,
           msg_type := "info" } ::
          (if strContains
               (callOutput (sampleRetryEnv 3).call
                 (AgentTask.init "id5" "p" "A" 2).name
                 (AgentTask.init "id5" "p" "A" 2).prompt).toLower
               "issue" ||
             strContains
               (callOutput (sampleRetryEnv 3).call
                 (AgentTask.init "id5" "p" "A" 2).name
                 (AgentTask.init "id5" "p" "A" 2).prompt).toLower
               "problem" then
             [{ from_agent := (AgentTask.init "id5" "p" "A" 2).name,
                content := "Found potential issues",
                timestamp := (sampleRetryEnv 3).msgTime,
                msg_type := "finding" }]
           else [])) :=
  ⟨rfl, by decide, by decide, rfl, rfl,
   (claim_failure_warning_messages (AgentTask.init "id5" "p" "A" 2)
     { messages := [] } sampleRetryEnv "e" 3 rfl (by decide) (by decide)
     rfl).1 rfl⟩
